import Mathlib

/-!
Shallow embedding of the callhorizons package (callhorizons/callhorizons.py):
the designation grammars (parse_comet, parse_asteroid, _char2int, iscomet,
isasteroid, isorbit_record), the COMMAND-selection branch shared by
get_ephemerides and get_elements, and the response-parsing portions of
get_ephemerides and get_elements.

Python strings are modelled as lists of characters with ASCII semantics for
the character-class predicates; Python exceptions are modelled with Except;
numpy float64 cell values are modelled as exact rationals plus a nan marker
(no property below depends on rounding).  The regular expressions of the two
grammars are embedded as deterministic matchers that implement the exact
leftmost-scan, ordered-alternative, greedy-with-backtracking semantics of
the Python re module for these particular patterns.
-/

namespace CallHorizons

/-- Python exception kinds raised by the embedded code.  The two ValueError
messages raised by the response scan are kept apart so that theorems can
distinguish them. -/
inductive PyErr where
  | ambiguousTarget
  | unknownTarget
  | valueError
  | keyError
  | indexError
  | nameError
  | assertionError
  deriving DecidableEq, Repr

/-- ASCII decimal digit, as tested by the str.isdigit of the source. -/
def pyIsDigit (c : Char) : Bool := 48 ≤ c.toNat && c.toNat ≤ 57

/-- ASCII upper-case letter, as tested by str.isupper. -/
def pyIsUpper (c : Char) : Bool := 65 ≤ c.toNat && c.toNat ≤ 90

/-- ASCII lower-case letter, as tested by str.islower. -/
def pyIsLower (c : Char) : Bool := 97 ≤ c.toNat && c.toNat ≤ 122

/-- ASCII letter, as tested by str.isalpha. -/
def pyIsAlpha (c : Char) : Bool := pyIsUpper c || pyIsLower c

/-- Python whitespace, as stripped by str.strip with no argument. -/
def pyIsSpace (c : Char) : Bool :=
  c = ' ' || c = '\t' || c = '\n' || c = '\r' || c = '\x0b' || c = '\x0c'

/-- Regex word character, for the word boundary test of the patterns. -/
def isWordChar (c : Char) : Bool := pyIsDigit c || pyIsAlpha c || c = '_'

/-- Character class [1-9]. -/
def digit19 (c : Char) : Bool := 49 ≤ c.toNat && c.toNat ≤ 57

/-- Character class [1-2]. -/
def digit12 (c : Char) : Bool := c = '1' || c = '2'

/-- Character class [1-3]. -/
def digit13 (c : Char) : Bool := 49 ≤ c.toNat && c.toNat ≤ 51

/-- Character class [1-9A-Z]. -/
def alnum19AZ (c : Char) : Bool := digit19 c || pyIsUpper c

/-- Character class [0-9a-z]. -/
def digitOrLower (c : Char) : Bool := pyIsDigit c || pyIsLower c

/-- Character class consisting of a space or an underscore. -/
def spaceOrUnderscore (c : Char) : Bool := c = ' ' || c = '_'

/-- Character class consisting of a space or a dash. -/
def spaceOrDash (c : Char) : Bool := c = ' ' || c = '-'

/-- Character class [IJKL]. -/
def classIJKL (c : Char) : Bool := c = 'I' || c = 'J' || c = 'K' || c = 'L'

/-- Character class [PDCXAI]. -/
def classPDCXAI (c : Char) : Bool :=
  c = 'P' || c = 'D' || c = 'C' || c = 'X' || c = 'A' || c = 'I'

/-- str.strip with no argument: remove surrounding whitespace. -/
def pyStrip (l : List Char) : List Char :=
  ((l.dropWhile pyIsSpace).reverse.dropWhile pyIsSpace).reverse

/-- Length of the maximal prefix of characters belonging to a class. -/
def charRun (cls : Char → Bool) (l : List Char) : Nat := (l.takeWhile cls).length

/-- Does the list start with the given prefix. -/
def startsWithL : List Char → List Char → Bool
  | _, [] => true
  | [], _ :: _ => false
  | c :: t, p :: ps => c = p && startsWithL t ps

/-- Substring containment, modelling the Python in operator on strings. -/
def containsSub (needle : List Char) : List Char → Bool
  | [] => startsWithL [] needle
  | c :: t => startsWithL (c :: t) needle || containsSub needle t

/-- Substring containment on Lean strings. -/
def pyIn (needle hay : String) : Bool := containsSub needle.toList hay.toList

/-- First index at which the needle occurs, if any. -/
def pyFindPos (needle : List Char) : List Char → Option Nat
  | [] => if startsWithL [] needle then some 0 else none
  | c :: t =>
    if startsWithL (c :: t) needle then some 0
    else (pyFindPos needle t).map (· + 1)

/-- str.find: index of the first occurrence, or -1. -/
def pyFind (hay needle : List Char) : Int :=
  match pyFindPos needle hay with
  | some n => (n : Int)
  | none => -1

/-- Python slice endpoint resolution for a possibly negative index. -/
def pySliceIdx (len : Nat) (i : Int) : Nat :=
  if i < 0 then (max 0 ((len : Int) + i)).toNat else min i.toNat len

/-- Python slice l[a:b] with possibly negative endpoints. -/
def pySlice (l : List Char) (a b : Int) : List Char :=
  let lo := pySliceIdx l.length a
  let hi := pySliceIdx l.length b
  (l.take hi).drop lo

/-- str.replace with a single-character pattern. -/
def replaceChar (old : Char) (new : List Char) (l : List Char) : List Char :=
  (l.map (fun c => if c = old then new else [c])).flatten

/-- str.translate with the table mapping both parentheses to spaces. -/
def translateParens (l : List Char) : List Char :=
  l.map (fun c => if c = '(' || c = ')' then ' ' else c)

/-- str.lstrip with argument a single zero character. -/
def lstripZeros (l : List Char) : List Char := l.dropWhile (fun c => c = '0')

/-- str.rstrip with an explicit character set. -/
def pyRstrip (cs : List Char) (l : List Char) : List Char :=
  (l.reverse.dropWhile (fun c => cs.contains c)).reverse

/-- Value of an ASCII digit character. -/
def digitVal (c : Char) : Nat := c.toNat - 48

/-- Value of a single character for int(c, 36): digits carry their value,
letters of either case carry 10 plus their alphabet index.  none when the
character is not alphanumeric (Python raises ValueError there). -/
def int36Char (c : Char) : Option Nat :=
  if pyIsDigit c then some (digitVal c)
  else if pyIsUpper c then some (10 + (c.toNat - 65))
  else if pyIsLower c then some (10 + (c.toNat - 97))
  else none

/-- The _char2int helper of the source: digits via int(float(c)), upper case
via int(c, 36), everything else via 26 + int(c, 36). -/
def _char2int (c : Char) : Except PyErr Nat :=
  if pyIsDigit c then .ok (digitVal c)
  else if pyIsUpper c then
    match int36Char c with
    | some n => .ok n
    | none => .error .valueError
  else
    match int36Char c with
    | some n => .ok (26 + n)
    | none => .error .valueError

/-- str of a natural number. -/
def pyStrNat (n : Nat) : List Char := Nat.toDigits 10 n

/-! ### Deterministic matchers for the two regular-expression grammars

Each Python pattern is translated into a matcher that consumes a prefix of
the input.  Greedy bounded repetition over a character class followed by a
mandatory continuation is realised by tryCountsFrom, which hands the
continuation j, j-1, ..., lo consumed characters in this order and keeps the
first success: exactly the backtracking order of the re module.  Trailing
greedy pieces whose continuation cannot fail are realised by maximal runs. -/

/-- Backtracking repetition helper: try to pass j, j-1, ..., lo characters of
the input to the continuation; the first success wins. -/
def tryCountsFrom {R : Type} (lo : Nat) (l : List Char)
    (k : List Char → List Char → Option R) : Nat → Option R
  | 0 => if lo = 0 then k (l.take 0) (l.drop 0) else none
  | j + 1 =>
    if j + 1 < lo then none
    else
      match k (l.take (j + 1)) (l.drop (j + 1)) with
      | some r => some r
      | none => tryCountsFrom lo l k j

/-- Greedy repetition cls-lo-hi (hi = none meaning unbounded) followed by a
continuation, with regex backtracking. -/
def tryRep {R : Type} (cls : Char → Bool) (lo : Nat) (hi : Option Nat)
    (l : List Char) (k : List Char → List Char → Option R) : Option R :=
  let run := charRun cls l
  tryCountsFrom lo l k (match hi with | some h => min run h | none => run)

/-- Greedy star over a character class with no following mandatory piece:
the maximal run. -/
def starClass (cls : Char → Bool) (l : List Char) : List Char × List Char :=
  (l.takeWhile cls, l.dropWhile cls)

/-- Greedy optional single character of a class with no following mandatory
piece. -/
def optClass (cls : Char → Bool) : List Char → List Char × List Char
  | [] => ([], [])
  | c :: t => if cls c then ([c], t) else ([], c :: t)

/-- After a word character, the regex group of a word boundary or end of
input accepts exactly when the next character is absent or not a word
character. -/
def boundaryAfterWord : List Char → Bool
  | [] => true
  | c :: _ => !isWordChar c

/-! ### The comet grammar (parse_comet) -/

/-- Matcher for the start-anchored comet prefix alternative (group 1 of the
parse_comet pattern): digits from [1-9] then one letter of [PDCXAI] then an
optional dash plus one or two capitals; or a single [PDCXAI] letter followed
by a slash. -/
def matchCometPrefix (l : List Char) : Option (List Char × List Char) :=
  match tryRep digit19 1 none l (fun ds rest =>
    match rest with
    | c :: t =>
      if classPDCXAI c then
        match t with
        | '-' :: t2 =>
          let run := charRun pyIsUpper t2
          if run = 0 then some (ds ++ [c], t)
          else
            let k := min run 2
            some (ds ++ c :: '-' :: t2.take k, t2.drop k)
        | _ => some (ds ++ [c], t)
      else none
    | [] => none) with
  | some r => some r
  | none =>
    match l with
    | c :: '/' :: t => if classPDCXAI c then some ([c, '/'], t) else none
    | _ => none

/-- Matcher for the comet provisional-designation alternative (group 4):
optional minus, three or four digits, a space or underscore, one or two
capitals, one to three digits, and an optional dash plus up to two
characters of [1-9A-Z]. -/
def matchCometDesig (l : List Char) : Option (List Char × List Char) :=
  let p := optClass (fun c => c = '-') l
  tryRep pyIsDigit 3 (some 4) p.2 (fun ys rest =>
    match rest with
    | s :: t =>
      if spaceOrUnderscore s then
        tryRep pyIsUpper 1 (some 2) t (fun ls rest2 =>
          tryRep pyIsDigit 1 (some 3) rest2 (fun ns rest3 =>
            match rest3 with
            | '-' :: t3 =>
              let k := min (charRun alnum19AZ t3) 2
              some (p.1 ++ ys ++ s :: (ls ++ ns ++ '-' :: t3.take k), t3.drop k)
            | _ => some (p.1 ++ ys ++ s :: (ls ++ ns), rest3)))
      else none
    | [] => none)

/-- One iteration of the trailing repetition of the comet name alternative:
a space followed by one or two characters of [1-9A-Z]. -/
def stepSpaceAl : List Char → Option (List Char × List Char)
  | ' ' :: t =>
    let run := charRun alnum19AZ t
    if run = 0 then none
    else
      let k := min run 2
      some (' ' :: t.take k, t.drop k)
  | _ => none

/-- Greedy star over stepSpaceAl (its continuation is the end of the
pattern, so the maximal number of iterations is kept). -/
def repSpaceAl : Nat → List Char → List Char × List Char
  | 0, l => ([], l)
  | fuel + 1, l =>
    match stepSpaceAl l with
    | none => ([], l)
    | some (c1, rest) =>
      let p := repSpaceAl fuel rest
      (c1 ++ p.1, p.2)

/-- Matcher for the comet name alternative (group 6): one capital, an
optional lower-case letter, capitals, lower-case letters, an optional space
or dash, an optional capital, digits of [1-9], lower-case letters, then zero
or more groups of a space plus one or two characters of [1-9A-Z].  Every
piece after the leading capital is optional, so greedy matching is exact. -/
def matchCometName (l : List Char) : Option (List Char × List Char) :=
  match l with
  | c :: t =>
    if pyIsUpper c then
      let p1 := optClass pyIsLower t
      let p2 := starClass pyIsUpper p1.2
      let p3 := starClass pyIsLower p2.2
      let p4 := optClass spaceOrDash p3.2
      let p5 := optClass pyIsUpper p4.2
      let p6 := starClass digit19 p5.2
      let p7 := starClass pyIsLower p6.2
      let p8 := repSpaceAl p7.2.length p7.2
      some (c :: (p1.1 ++ p2.1 ++ p3.1 ++ p4.1 ++ p5.1 ++ p6.1 ++ p7.1 ++ p8.1), p8.2)
    else none
  | [] => none

/-- The captured groups of one comet-pattern match that the source consults:
el[0] (prefix and number), el[3] (provisional designation), el[5] (name).
Groups of alternatives that did not participate are empty. -/
structure CometGroups where
  g1 : List Char
  g4 : List Char
  g6 : List Char
  deriving DecidableEq, Repr

/-- One match attempt of the full comet pattern at the current position.
The first alternative is start-anchored, so it is attempted only when the
position is the start of the string. -/
def cometStep (atStart : Bool) (l : List Char) : Option (CometGroups × List Char) :=
  match (if atStart then matchCometPrefix l else none) with
  | some (g, rest) => some (⟨g, [], []⟩, rest)
  | none =>
    match matchCometDesig l with
    | some (g, rest) => some (⟨[], g, []⟩, rest)
    | none =>
      match matchCometName l with
      | some (g, rest) => some (⟨[], [], g⟩, rest)
      | none => none

/-- re.findall scan: attempt a match at each position from left to right,
resuming after the end of each (always nonempty) match.  The fuel bounds the
number of steps; it is instantiated with the input length, which suffices
because every step either consumes at least one character or advances one
position. -/
def scanFindall {G : Type} (step : Bool → List Char → Option (G × List Char)) :
    Nat → Bool → List Char → List G
  | 0, _, _ => []
  | _ + 1, _, [] => []
  | fuel + 1, first, c :: t =>
    match step first (c :: t) with
    | none => scanFindall step fuel false t
    | some (g, rest) => g :: scanFindall step fuel false rest

/-- re.findall of the comet pattern. -/
def findallComet (l : List Char) : List CometGroups :=
  scanFindall cometStep l.length true l

/-- parse_comet: strip the target name, scan it with the comet pattern and
fold the group tuples in order, later matches overwriting earlier ones.
Result order is (designation, prefix and number, name), as in the source. -/
def parse_comet (targetname : String) :
    Option String × Option String × Option String :=
  let m := findallComet (pyStrip targetname.toList)
  let z := m.foldl
    (fun (acc : Option (List Char) × Option (List Char) × Option (List Char)) el =>
      let pn := if 0 < el.g1.length then some (replaceChar '/' [] el.g1) else acc.2.1
      let ds := if 0 < el.g4.length then some (replaceChar '_' [' '] el.g4) else acc.1
      let nm := if 1 < el.g6.length then some el.g6 else acc.2.2
      (ds, pn, nm))
    (none, none, none)
  (z.1.map (fun l => String.mk l), z.2.1.map (fun l => String.mk l),
    z.2.2.map (fun l => String.mk l))

/-- iscomet.  When the comet flag of the query object is set the source
executes a return statement naming the undefined lower-case identifier true,
which raises NameError at run time; otherwise the object is a comet when
parse_comet finds a designation or a prefix. -/
def iscomet (comet : Bool) (targetname : String) : Except PyErr Bool :=
  if comet = true then .error .nameError
  else
    .ok ((parse_comet targetname).1.isSome || (parse_comet targetname).2.1.isSome)

/-! ### Numeric string conversions -/

/-- Nonempty all-digit test, as str.isdigit. -/
def strIsDigit (l : List Char) : Bool := !l.isEmpty && l.all pyIsDigit

/-- Nonempty all-letter test, as str.isalpha. -/
def strIsAlpha (l : List Char) : Bool := !l.isEmpty && l.all pyIsAlpha

/-- Value of a digit string. -/
def digitsToNat (l : List Char) : Nat := l.foldl (fun a c => 10 * a + digitVal c) 0

/-- int() of a decimal string: optional surrounding whitespace, optional
sign, at least one digit. -/
def pyIntDec (l : List Char) : Except PyErr Int :=
  match pyStrip l with
  | '-' :: t => if strIsDigit t then .ok (-(digitsToNat t : Int)) else .error .valueError
  | '+' :: t => if strIsDigit t then .ok ((digitsToNat t : Int)) else .error .valueError
  | t => if strIsDigit t then .ok ((digitsToNat t : Int)) else .error .valueError

/-- An exact rational value kept as an unnormalized numerator-denominator
pair (every construction below yields a positive denominator).  The pair is
deliberately not reduced: all operations are plain integer arithmetic, so
every value computed by the embedded code evaluates inside the kernel.
Python float values are IEEE doubles; this model is exact instead, and no
property below depends on rounding. -/
structure PyQ where
  num : Int
  den : Int
  deriving DecidableEq, Repr

/-- Sum of two fraction pairs. -/
def qAdd (a b : PyQ) : PyQ := ⟨a.num * b.den + b.num * a.den, a.den * b.den⟩

/-- Product of two fraction pairs. -/
def qMul (a b : PyQ) : PyQ := ⟨a.num * b.num, a.den * b.den⟩

/-- Quotient of two fraction pairs (used only with positive divisors). -/
def qDiv (a b : PyQ) : PyQ := ⟨a.num * b.den, a.den * b.num⟩

/-- Sign application. -/
def qSign (s : Int) (a : PyQ) : PyQ := ⟨s * a.num, a.den⟩

/-- float() and numpy.float64() of a string: optional surrounding
whitespace, optional sign, digits with an optional fractional part, and an
optional decimal exponent.  (The named values inf and nan are not accepted
here; no input of the developments below uses them.) -/
def parseFloatQ (l0 : List Char) : Option PyQ :=
  let l := pyStrip l0
  let p : Int × List Char :=
    match l with
    | '-' :: t => (-1, t)
    | '+' :: t => (1, t)
    | t => (1, t)
  let ip := p.2.takeWhile pyIsDigit
  let r1 := p.2.dropWhile pyIsDigit
  let q : List Char × List Char :=
    match r1 with
    | '.' :: t => (t.takeWhile pyIsDigit, t.dropWhile pyIsDigit)
    | _ => ([], r1)
  if ip.isEmpty && q.1.isEmpty then none
  else
    let mantissa : PyQ :=
      qAdd ⟨(digitsToNat ip : Int), 1⟩ ⟨(digitsToNat q.1 : Int), ((10 : Nat) ^ q.1.length : Nat)⟩
    match q.2 with
    | [] => some (qSign p.1 mantissa)
    | e :: t =>
      if e = 'e' || e = 'E' then
        let s : Bool × List Char :=
          match t with
          | '-' :: t2 => (true, t2)
          | '+' :: t2 => (false, t2)
          | t2 => (false, t2)
        let ed := s.2.takeWhile pyIsDigit
        let rest := s.2.dropWhile pyIsDigit
        if ed.isEmpty || !rest.isEmpty then none
        else
          let scaled :=
            if s.1 then qDiv mantissa ⟨((10 : Nat) ^ digitsToNat ed : Nat), 1⟩
            else qMul mantissa ⟨((10 : Nat) ^ digitsToNat ed : Nat), 1⟩
          some (qSign p.1 scaled)
      else none

/-- float() raising ValueError on failure. -/
def pyFloat (l : List Char) : Except PyErr PyQ :=
  match parseFloatQ l with
  | some q => .ok q
  | none => .error .valueError

/-- int() applied to a float: truncation toward zero (all uses here have a
positive denominator). -/
def ratTruncToInt (q : PyQ) : Int := q.num.tdiv q.den

/-- Python sequence indexing l[i] with negative-index support, raising
IndexError when out of range. -/
def pyAt (l : List Char) (i : Int) : Except PyErr Char :=
  let j : Int := if i < 0 then (l.length : Int) + i else i
  if h : 0 ≤ j ∧ j.toNat < l.length then .ok (l.get ⟨j.toNat, h.2⟩)
  else .error .indexError

/-- Python slice l[a:] with negative-index support. -/
def pySliceFrom (l : List Char) (a : Int) : List Char := l.drop (pySliceIdx l.length a)

/-- Python slice l[:b] with negative-index support. -/
def pySliceTo (l : List Char) (b : Int) : List Char := l.take (pySliceIdx l.length b)

/-- str of an integer. -/
def pyStrInt (i : Int) : String :=
  if i < 0 then String.mk ('-' :: pyStrNat (-i).toNat) else String.mk (pyStrNat i.toNat)

/-! ### The asteroid grammar (parse_asteroid) -/

/-- Matcher for the rejection pattern of parse_asteroid (comet-style
designations): [1-2], up to three digits, space or underscore, one capital,
digits, then a word boundary or the end of the input. -/
def matchNonPat (l : List Char) : Option (List Char × List Char) :=
  match l with
  | c :: t =>
    if digit12 c then
      tryRep pyIsDigit 0 (some 3) t (fun ds rest =>
        match rest with
        | s :: t2 =>
          if spaceOrUnderscore s then
            match t2 with
            | u :: t3 =>
              if pyIsUpper u then
                tryRep pyIsDigit 0 none t3 (fun ns rest2 =>
                  if boundaryAfterWord rest2 then
                    some (c :: (ds ++ s :: u :: ns), rest2)
                  else none)
              else none
            | [] => none
          else none
        | [] => none)
    else none
  | [] => none

/-- Matcher for the unpacked-designation alternative of the asteroid
pattern: [1-2], up to three digits, space or underscore, exactly two
capitals, up to three digits. -/
def matchAstDesig (l : List Char) : Option (List Char × List Char) :=
  match l with
  | c :: t =>
    if digit12 c then
      tryRep pyIsDigit 0 (some 3) t (fun ds rest =>
        match rest with
        | s :: u1 :: u2 :: t3 =>
          if spaceOrUnderscore s && pyIsUpper u1 && pyIsUpper u2 then
            let k := min (charRun pyIsDigit t3) 3
            some (c :: (ds ++ s :: u1 :: u2 :: t3.take k), t3.drop k)
          else none
        | _ => none)
    else none
  | [] => none

/-- Matcher for the Palomar-Leiden and Trojan survey alternative: a nonzero
digit, exactly three digits, space or underscore, then the literal P-L or T-
followed by a digit of [1-3]. -/
def matchPalomar (l : List Char) : Option (List Char × List Char) :=
  match l with
  | c :: d1 :: d2 :: d3 :: s :: t =>
    if digit19 c && pyIsDigit d1 && pyIsDigit d2 && pyIsDigit d3 &&
        spaceOrUnderscore s then
      match t with
      | 'P' :: '-' :: 'L' :: t2 => some ([c, d1, d2, d3, s, 'P', '-', 'L'], t2)
      | 'T' :: '-' :: x :: t2 =>
        if digit13 x then some ([c, d1, d2, d3, s, 'T', '-', x], t2) else none
      | _ => none
    else none
  | _ => none

/-- Matcher for the packed seven-character designation alternative:
[IJKL], two digits, a capital, a digit or lower-case letter, a digit, a
capital. -/
def matchPacked7 (l : List Char) : Option (List Char × List Char) :=
  match l with
  | c0 :: d1 :: d2 :: u :: x :: d :: u2 :: t =>
    if classIJKL c0 && pyIsDigit d1 && pyIsDigit d2 && pyIsUpper u &&
        digitOrLower x && pyIsDigit d && pyIsUpper u2 then
      some ([c0, d1, d2, u, x, d, u2], t)
    else none
  | _ => none

/-- Matcher for the packed five-character number alternative: a letter of
either case followed by exactly four digits. -/
def matchPacked5 (l : List Char) : Option (List Char × List Char) :=
  match l with
  | c0 :: d1 :: d2 :: d3 :: d4 :: t =>
    if pyIsAlpha c0 && pyIsDigit d1 && pyIsDigit d2 && pyIsDigit d3 &&
        pyIsDigit d4 then
      some ([c0, d1, d2, d3, d4], t)
    else none
  | _ => none

/-- Matcher for the asteroid name alternative: at least one capital, at
least one lower-case letter, then everything up to the next digit (the
trailing optional pieces of the pattern are subsumed by the greedy non-digit
star; they all match empty afterwards). -/
def matchAstName (l : List Char) : Option (List Char × List Char) :=
  match l with
  | c :: t =>
    if pyIsUpper c then
      let p2 := starClass pyIsUpper t
      match p2.2 with
      | c2 :: t2 =>
        if pyIsLower c2 then
          let p3 := starClass pyIsLower t2
          let p4 := starClass (fun ch => !pyIsDigit ch) p3.2
          some (c :: (p2.1 ++ c2 :: (p3.1 ++ p4.1)), p4.2)
        else none
      | [] => none
    else none
  | [] => none

/-- Matcher for the plain number alternative: a nonzero digit, digits, then
a word boundary or the end of the input. -/
def matchAstNumber (l : List Char) : Option (List Char × List Char) :=
  match l with
  | c :: t =>
    if digit19 c then
      tryRep pyIsDigit 0 none t (fun ds rest =>
        if boundaryAfterWord rest then some (c :: ds, rest) else none)
    else none
  | [] => none

/-- The captured groups of one asteroid-pattern match that the source
consults: el[0] (unpacked or survey designation), el[4] (packed
seven-character designation), el[5] (packed number), el[6] (name), el[7]
(number). -/
structure AstGroups where
  g1 : List Char
  g5 : List Char
  g6 : List Char
  g7 : List Char
  g8 : List Char
  deriving DecidableEq, Repr

/-- One match attempt of the full asteroid pattern, alternatives in source
order. -/
def astStep (_ : Bool) (l : List Char) : Option (AstGroups × List Char) :=
  match matchAstDesig l with
  | some (g, rest) => some (⟨g, [], [], [], []⟩, rest)
  | none =>
    match matchPalomar l with
    | some (g, rest) => some (⟨g, [], [], [], []⟩, rest)
    | none =>
      match matchPacked7 l with
      | some (g, rest) => some (⟨[], g, [], [], []⟩, rest)
      | none =>
        match matchPacked5 l with
        | some (g, rest) => some (⟨[], [], g, [], []⟩, rest)
        | none =>
          match matchAstName l with
          | some (g, rest) => some (⟨[], [], [], g, []⟩, rest)
          | none =>
            match matchAstNumber l with
            | some (g, rest) => some (⟨[], [], [], [], g⟩, rest)
            | none => none

/-- re.findall of the asteroid pattern. -/
def findallAst (l : List Char) : List AstGroups :=
  scanFindall astStep l.length true l

/-- One rejection-pattern match attempt, returning the pair of captured
groups (the whole match and the always-empty boundary group). -/
def nonPatStep (_ : Bool) (l : List Char) :
    Option ((List Char × List Char) × List Char) :=
  (matchNonPat l).map (fun p => ((p.1, ([] : List Char)), p.2))

/-- re.findall of the rejection pattern. -/
def findallNonPat (l : List Char) : List (List Char × List Char) :=
  scanFindall nonPatStep l.length true l

/-- Excision step of the rejection loop:
raw[:raw.find(p)] + raw[raw.find(p)+len(p):], including the Python
negative-slice behaviour when p is absent. -/
def excise (raw p : List Char) : List Char :=
  pySliceTo raw (pyFind raw p) ++ pySliceFrom raw (pyFind raw p + p.length)

/-- The rejection loop of parse_asteroid: every nonempty captured group of
every rejection-pattern match is excised from the working string in order
(empty groups are skipped by the continue statement). -/
def rejectNonPat (raw : List Char) : List Char :=
  (findallNonPat raw).foldl
    (fun r pg =>
      let r1 := if pg.1.isEmpty then r else excise r pg.1
      if pg.2.isEmpty then r1 else excise r1 pg.2)
    raw

/-- The packed seven-character unpacking branch of parse_asteroid, with the
full elif chain of the source (old-style short designation, the PLS and
T1S-T3S survey prefixes, blank insertion, the Minor-Planet-Center packed
form, and the identity fallback). -/
def unpack7Branch (ident : List Char) : Except PyErr (List Char) := do
  if (pyStrip ident).length < 7 && strIsDigit (pySliceTo ident 4) &&
      strIsAlpha (pySlice ident 4 6) then
    return pySliceTo ident 4 ++ ' ' :: pySlice ident 4 6
  if pyFindPos ['P', 'L', 'S'] ident = some 0 then
    return pySliceFrom ident 3 ++ [' ', 'P', '-', 'L']
  if pyFindPos ['T', '1', 'S'] ident = some 0 then
    return pySliceFrom ident 3 ++ [' ', 'T', '-', '1']
  if pyFindPos ['T', '2', 'S'] ident = some 0 then
    return pySliceFrom ident 3 ++ [' ', 'T', '-', '2']
  if pyFindPos ['T', '3', 'S'] ident = some 0 then
    return pySliceFrom ident 3 ++ [' ', 'T', '-', '3']
  if strIsDigit (pySlice ident 0 4) && strIsAlpha (pySlice ident 4 6) then
    let c4 ← pyAt ident 4
    if c4 ≠ ' ' then
      return pySliceTo ident 4 ++ ' ' :: pySliceFrom ident 4
  let c0 ← pyAt ident 0
  if pyIsAlpha c0 && strIsDigit (pySlice ident 1 3) then
    let cl ← pyAt ident (-1)
    if pyIsAlpha cl then
      let cp ← pyAt ident (-2)
      if pyIsDigit cp then
        let y ← _char2int c0
        let c3 ← pyAt ident 3
        let x4 ← pyAt ident 4
        let v ← _char2int x4
        let c5 ← pyAt ident 5
        let num := lstripZeros (pyStrNat v ++ [c5])
        return (pyStrNat y ++ pySlice ident 1 3) ++ ' ' :: c3 :: cl :: num
  return ident

/-- parse_asteroid: map parentheses to blanks and strip, excise rejected
comet-style fragments, scan with the asteroid pattern, and fold the matches
in order through the elif chain of the source.  Result order is
(designation, number, name). -/
def parse_asteroid (targetname : String) :
    Except PyErr (Option String × Option Int × Option String) := do
  let raw0 := pyStrip (translateParens targetname.toList)
  let raw := rejectNonPat raw0
  let m := findallAst raw
  let z ← m.foldlM
    (fun (acc : Option (List Char) × Option Int × Option (List Char)) el => do
      if 0 < el.g1.length then
        return (some el.g1, acc.2.1, acc.2.2)
      else if 0 < el.g5.length then
        let d ← unpack7Branch el.g5
        return (some d, acc.2.1, acc.2.2)
      else if 0 < el.g6.length then
        let c0 ← pyAt el.g6 0
        let v ← _char2int c0
        let n ← pyIntDec (pyStrNat v ++ pySliceFrom el.g6 1)
        return (acc.1, some n, acc.2.2)
      else if 0 < el.g8.length then
        let q ← pyFloat (translateParens el.g8)
        return (acc.1, some (ratTruncToInt q), acc.2.2)
      else if 0 < el.g7.length then
        if 1 < (pyStrip el.g7).length then
          return (acc.1, acc.2.1, some (pyStrip el.g7))
        else
          return acc
      else
        return acc)
    (none, none, none)
  return (z.1.map (fun l => String.mk l), z.2.1, z.2.2.map (fun l => String.mk l))

/-- Minimal Python value domain for the comparison performed by isasteroid:
the result of any(...) is a bool object, which is never the None object. -/
inductive PyVal where
  | pynone
  | pybool (b : Bool)
  deriving DecidableEq, Repr

/-- The Python expression x is not None. -/
def pyIsNotNone : PyVal → Bool
  | .pynone => false
  | .pybool _ => true

/-- isasteroid.  With the asteroid flag unset the source computes
any(self.parse_asteroid()) is not None: the identity comparison of a bool
object against None, which never holds, so the test degenerates to true for
every target name. -/
def isasteroid (asteroid : Bool) (targetname : String) : Except PyErr Bool :=
  if asteroid = true then .ok true
  else
    match parse_asteroid targetname with
    | .error e => .error e
    | .ok t =>
      let anyTruthy :=
        (match t.1 with | some s => !s.isEmpty | none => false) ||
        (match t.2.1 with | some n => decide (n ≠ 0) | none => false) ||
        (match t.2.2 with | some s => !s.isEmpty | none => false)
      .ok (pyIsNotNone (PyVal.pybool anyTruthy))

/-- isorbit_record: the target name, stripped, matches the anchored pattern
of a 9 followed by exactly five digits. -/
def isorbit_record (targetname : String) : Bool :=
  match pyStrip targetname.toList with
  | '9' :: t => t.length = 5 && t.all pyIsDigit
  | _ => false

/-- The COMMAND variant selected by the branch chain of get_ephemerides
(and, with the same structure, get_elements): opaque pass-through for
non-small bodies, orbit-record number, comet designation with optional CAP,
asteroid designation, or the fall-through. -/
inductive Command where
  | opaqueExact (s : String)
  | orbitRecord (s : String)
  | cometDes (ident : String) (cap : Bool)
  | asteroidDes (ident : String)
  | opaqueFall (s : String)
  deriving DecidableEq, Repr

/-- The first element of the parse_comet tuple that is not None, else the
target name (the for-break-else idiom of the source). -/
def firstCometIdent (targetname : String) : String :=
  let p := parse_comet targetname
  match p.1 with
  | some d => d
  | none =>
    match p.2.1 with
    | some pn => pn
    | none =>
      match p.2.2 with
      | some nm => nm
      | none => targetname

/-- The first element of the parse_asteroid tuple that is not None, rendered
with str, else the target name. -/
def firstAsteroidIdent (targetname : String) : Except PyErr String :=
  match parse_asteroid targetname with
  | .error e => .error e
  | .ok t =>
    match t.1 with
    | some d => .ok d
    | none =>
      match t.2.1 with
      | some n => .ok (pyStrInt n)
      | none =>
        match t.2.2 with
        | some nm => .ok nm
        | none => .ok targetname

/-- The COMMAND-selection branch of get_ephemerides (source lines 560-597):
not-a-small-body first, then the orbit-record test, then the comet branch
guarded by iscomet() and not asteroid, then the asteroid branch guarded by
isasteroid(), then the fall-through. -/
def chooseCommand (not_smallbody comet asteroid cap : Bool)
    (targetname : String) : Except PyErr Command :=
  if not_smallbody then .ok (.opaqueExact targetname)
  else if isorbit_record targetname then .ok (.orbitRecord targetname)
  else
    match iscomet comet targetname with
    | .error e => .error e
    | .ok ic =>
      if ic && !asteroid then .ok (.cometDes (firstCometIdent targetname) cap)
      else
        match isasteroid asteroid targetname with
        | .error e => .error e
        | .ok ia =>
          if ia then
            match firstAsteroidIdent targetname with
            | .error e => .error e
            | .ok ident => .ok (.asteroidDes ident)
          else .ok (.opaqueFall targetname)

/-! ### Data access before a successful query

The query object is created with self.data set to None; fields and len
catch the AttributeError that follows from touching attributes of None, and
getitem tests for missing data explicitly (printing a notice, which is a
side effect outside this model) and returns None. -/

/-- A stored result table: field names and rows (shared by the ephemerides
and elements results). -/
structure StoredData where
  fieldnames : List String
  rows : List (List String)
  deriving DecidableEq, Repr

/-- The fields property: self.data.dtype.names, with AttributeError on the
absent table caught and turned into the empty list. -/
def fieldsAccessor (data : Option StoredData) : List String :=
  match data with
  | none => []
  | some d => d.fieldnames

/-- The len operator: self.data.shape[0], with AttributeError on the absent
table caught and turned into 0. -/
def lenAccessor (data : Option StoredData) : Nat :=
  match data with
  | none => 0
  | some d => d.rows.length

/-- getitem: when the table is absent or empty, print a notice (a side
effect outside this model) and return None; otherwise index the structured
array by field name, with KeyError on an unknown field. -/
def getitemAccessor (data : Option StoredData) (key : String) :
    Except PyErr (Option (List String)) :=
  match data with
  | none => .ok none
  | some d =>
    if d.rows.length = 0 then .ok none
    else
      match d.fieldnames.indexOf? key with
      | some i => .ok (some (d.rows.map (fun r => r.getD i "")))
      | none => .error .keyError

/-- The data attribute as initialised by the constructor. -/
def initData : Option StoredData := none

/-! ### Response parsing: the scan loop shared by get_ephemerides and
get_elements -/

/-- A decoded cell value: a Python string, a numpy float64 value (exact
rational model), or numpy nan. -/
inductive Val where
  | vstr (s : String)
  | vnum (q : PyQ)
  | vnan
  deriving DecidableEq, Repr

/-- str.split with a single-character separator, as the source uses with
the comma and the equals sign: split at every occurrence, keeping empty
pieces. -/
def splitOnCharAux (sep : Char) : List Char → List Char → List (List Char)
  | [], acc => [acc.reverse]
  | c :: t, acc =>
    if c = sep then acc.reverse :: splitOnCharAux sep t []
    else splitOnCharAux sep t (c :: acc)

/-- str.split with a single-character separator, on Lean strings. -/
def pySplitChar (sep : Char) (s : String) : List String :=
  (splitOnCharAux sep s.toList []).map (fun l => String.mk l)

/-- List indexing with IndexError. -/
def listAtS (l : List String) (i : Nat) : Except PyErr String :=
  match l.get? i with
  | some x => .ok x
  | none => .error .indexError

/-- str.split with no argument: split on whitespace runs, dropping empty
pieces. -/
def splitWsAux : List Char → List Char → List (List Char)
  | [], acc => if acc.isEmpty then [] else [acc.reverse]
  | c :: t, acc =>
    if pyIsSpace c then
      if acc.isEmpty then splitWsAux t [] else acc.reverse :: splitWsAux t []
    else splitWsAux t (c :: acc)

/-- str.split with no argument, on Lean strings. -/
def pySplitWs (s : String) : List String :=
  (splitWsAux s.toList []).map (fun l => String.mk l)

/-- Python dict literal lookup. -/
def lookupTable (m : List (String × String)) (k : String) : Option String :=
  (m.find? (fun p => p.1 = k)).map (fun p => p.2)

/-- The state threaded through the line scan of both response parsers. -/
structure ScanState where
  headerline : List String
  datablock : List String
  in_datablock : Bool
  targetname : Option String
  hconst : Val
  gconst : Val
  deriving DecidableEq, Repr

/-- The scan state before the first line: H and G are initialised to nan and
targetname is an unbound local variable. -/
def initScanState : ScanState := ⟨[], [], false, none, .vnan, .vnan⟩

/-- The photometric-constant update two lines below the rotational-period
marker: the line is split on equals signs, piece 2 is read (IndexError when
absent), and each constant is parsed on its own with its ValueError caught. -/
def hgUpdate (line2 : String) (H G : Val) : Except PyErr (Val × Val) := do
  let parts := pySplitChar '=' line2
  let p2 ← listAtS parts 2
  let p1 ← listAtS parts 1
  if pyIn "B-V" p2 && pyIn "G" p1 then
    let H2 := match parseFloatQ (pyRstrip ['G'] p1.toList) with
      | some q => Val.vnum q
      | none => H
    let G2 := match parseFloatQ (pyRstrip ['B', '-', 'V'] p2.toList) with
      | some q => Val.vnum q
      | none => G
    return (H2, G2)
  else
    return (H, G)

/-- The state updates of one scan-loop line that can never raise: header
capture, the data-block flag toggles and row collection, and the target-name
capture, in source order. -/
def scanUpdates (headerMarker : String) (st : ScanState) (line : String) :
    ScanState :=
  let st := if pyIn headerMarker line then
      { st with headerline := pySplitChar ',' line } else st
  let st := if pyIn "$$EOE\n" line then { st with in_datablock := false } else st
  let st := if st.in_datablock then
      { st with datablock := st.datablock ++ [line] } else st
  let st := if pyIn "$$SOE\n" line then { st with in_datablock := true } else st
  if pyIn "Target body name" line then
    { st with targetname := some (String.mk (pyStrip (pySlice line.toList 18 50))) }
  else st

/-- One line of the scan loop, parameterised by the header marker (the only
difference between the ephemerides and the elements scan).  next1 and next2
are the following two source lines when they exist; reading past the end of
the line list raises IndexError exactly where the source indexes src[idx+1]
or src[idx+2]. -/
def scanLine (headerMarker : String) (st : ScanState) (line : String)
    (next1 next2 : Option String) : Except PyErr ScanState :=
  let st := scanUpdates headerMarker st line
  let st6 : Except PyErr ScanState :=
    if pyIn "rotational period in hours)" line then
      match next2 with
      | none => .error .indexError
      | some l2 =>
        match hgUpdate l2 st.hconst st.gconst with
        | .error e => .error e
        | .ok hg => .ok { st with hconst := hg.1, gconst := hg.2 }
    else .ok st
  match st6 with
  | .error e => .error e
  | .ok st =>
    if pyIn "Multiple major-bodies match string" line then
      .error .ambiguousTarget
    else if pyIn "Matching small-bodies" line then
      match next1 with
      | none => .error .indexError
      | some n1 =>
        if !(pyIn "No matches found" n1) then .error .ambiguousTarget
        else .error .unknownTarget
    else
      .ok st

/-- The scan loop: lines in order, with one and two lines of lookahead. -/
def scanLines (headerMarker : String) :
    ScanState → List String → Except PyErr ScanState
  | st, [] => .ok st
  | st, line :: rest =>
    match scanLine headerMarker st line rest.head? ((rest.drop 1).head?) with
    | .error e => .error e
    | .ok st2 => scanLines headerMarker st2 rest

/-! ### Response parsing: the ephemerides field-identification rules -/

/-- A numeric field decoded inside a try block: a ValueError from the
conversion is replaced by nan.  The scale is applied inside the try. -/
def tryFloatField (name : String) (cells : List String) (idx : Nat)
    (scale : PyQ → PyQ) : Except PyErr (List (String × Val)) := do
  let cell ← listAtS cells idx
  match parseFloatQ cell.toList with
  | some q => return [(name, Val.vnum (scale q))]
  | none => return [(name, Val.vnan)]

/-- A numeric field whose name is appended inside the try block: on a
ValueError the field is dropped entirely (the AZ and EL rules). -/
def tryFloatFieldOpt (name : String) (cells : List String) (idx : Nat) :
    Except PyErr (List (String × Val)) := do
  let cell ← listAtS cells idx
  match parseFloatQ cell.toList with
  | some q => return [(name, Val.vnum q)]
  | none => return []

/-- A numeric field decoded with no try block: a ValueError propagates. -/
def floatField (name : String) (cells : List String) (idx : Nat) :
    Except PyErr (List (String × Val)) := do
  let cell ← listAtS cells idx
  let q ← pyFloat cell.toList
  return [(name, Val.vnum q)]

/-- A numeric field decoded with no try block and scaled after the
conversion. -/
def floatFieldScaled (name : String) (cells : List String) (idx : Nat)
    (scale : PyQ → PyQ) : Except PyErr (List (String × Val)) := do
  let cell ← listAtS cells idx
  let q ← pyFloat cell.toList
  return [(name, Val.vnum (scale q))]

/-- The solar-presence label table. -/
def solarMap : List (String × String) :=
  [("*", "daylight"), ("C", "civil twilight"), ("N", "nautical twilight"),
   ("A", "astronomical twilight"), (" ", "dark"), ("t", "transiting")]

/-- The lunar-presence label table. -/
def lunarMap : List (String × String) := [("m", "moonlight"), (" ", "dark")]

/-- The elongation-flag table of the combined space-telescope column. -/
def elongMap2 : List (String × String) := [("/L", "leading"), ("/T", "trailing")]

/-- The elongation-flag table of the separate ground-based column. -/
def elongMap3 : List (String × String) :=
  [("/L", "leading"), ("/T", "trailing"), ("/?", "not defined")]

/-- Rules 1-6 of the ephemerides field identification, in source order:
the datetime column, the Julian-date column (which also decodes the solar
and lunar presence flags of the two following cells, each with its KeyError
caught and replaced by the literal n.a.), RA and DEC (both converted with no
try block), and the two coordinate rates (converted inside try blocks). -/
def ephFieldsA (cells : List String) (idx : Nat) (item : String) :
    Except PyErr (List (String × Val)) := do
  let f1 ← (if pyIn "Date__(UT)__HR:MN" item then do
      let cell ← listAtS cells idx
      return [("datetime", Val.vstr (String.mk (pyStrip cell.toList)))]
    else return [])
  let f2 ← (if pyIn "Date_________JDUT" item then do
      let cell ← listAtS cells idx
      let q ← pyFloat cell.toList
      let s1 ← listAtS cells (idx + 1)
      let sp := match lookupTable solarMap s1 with
        | some v => v
        | none => "n.a."
      let s2 ← listAtS cells (idx + 2)
      let lp := match lookupTable lunarMap s2 with
        | some v => v
        | none => "n.a."
      return [("datetime_jd", Val.vnum q), ("solar_presence", Val.vstr sp),
        ("lunar_presence", Val.vstr lp)]
    else return [])
  let f3 ← (if pyIn "R.A._(ICRF/J2000.0)" item then floatField "RA" cells idx
    else return [])
  let f4 ← (if pyIn "DEC_(ICRF/J2000.0)" item then floatField "DEC" cells idx
    else return [])
  let f5 ← (if pyIn "dRA*cosD" item then
      tryFloatField "RA_rate" cells idx (fun q => qDiv q ⟨3600, 1⟩) else return [])
  let f6 ← (if pyIn "d(DEC)/dt" item then
      tryFloatField "DEC_rate" cells idx (fun q => qDiv q ⟨3600, 1⟩) else return [])
  return f1 ++ f2 ++ f3 ++ f4 ++ f5 ++ f6

/-- Rules 7-12: azimuth and elevation (field dropped on a conversion
failure), airmass, extinction, apparent magnitude and illumination (nan on a
conversion failure). -/
def ephFieldsB (cells : List String) (idx : Nat) (item : String) :
    Except PyErr (List (String × Val)) := do
  let f7 ← (if pyIn "Azi_(a-app)" item then tryFloatFieldOpt "AZ" cells idx
    else return [])
  let f8 ← (if pyIn "Elev_(a-app)" item then tryFloatFieldOpt "EL" cells idx
    else return [])
  let f9 ← (if pyIn "a-mass" item then tryFloatField "airmass" cells idx id
    else return [])
  let f10 ← (if pyIn "mag_ex" item then tryFloatField "magextinct" cells idx id
    else return [])
  let f11 ← (if pyIn "APmag" item then tryFloatField "V" cells idx id
    else return [])
  let f12 ← (if pyIn "Illu%" item then tryFloatField "illumination" cells idx id
    else return [])
  return f7 ++ f8 ++ f9 ++ f10 ++ f11 ++ f12

/-- Rules 13-18: the four ecliptic coordinates, the heliocentric distance
(whose rule also requires the following header item to name rdot) and the
heliocentric radial rate. -/
def ephFieldsC (headerline : List String) (cells : List String) (idx : Nat)
    (item : String) : Except PyErr (List (String × Val)) := do
  let f13 ← (if pyIn "hEcl-Lon" item then tryFloatField "EclLon" cells idx id
    else return [])
  let f14 ← (if pyIn "hEcl-Lat" item then tryFloatField "EclLat" cells idx id
    else return [])
  let f15 ← (if pyIn "ObsEcLon" item then tryFloatField "ObsEclLon" cells idx id
    else return [])
  let f16 ← (if pyIn "ObsEcLat" item then tryFloatField "ObsEclLat" cells idx id
    else return [])
  let f17 ← (if pyIn "  r" item then do
      let h1 ← listAtS headerline (idx + 1)
      if pyIn "rdot" h1 then tryFloatField "r" cells idx id else return []
    else return [])
  let f18 ← (if pyIn "rdot" item then tryFloatField "r_rate" cells idx id
    else return [])
  return f13 ++ f14 ++ f15 ++ f16 ++ f17 ++ f18

/-- Rules 19-23: observer distance and rate, light time, elongation, and the
elongation-flag chain: the combined space-telescope column (lookup with no
try block, then the phase angle from the second token), else the plain
phase-angle column, else the separate flag column (lookup with no try
block). -/
def ephFieldsD (cells : List String) (idx : Nat) (item : String) :
    Except PyErr (List (String × Val)) := do
  let f19 ← (if pyIn "delta" item then tryFloatField "delta" cells idx id
    else return [])
  let f20 ← (if pyIn "deldot" item then tryFloatField "delta_rate" cells idx id
    else return [])
  let f21 ← (if pyIn "1-way_LT" item then
      tryFloatField "lighttime" cells idx (fun q => qMul q ⟨60, 1⟩) else return [])
  let f22 ← (if pyIn "S-O-T" item then tryFloatField "elong" cells idx id
    else return [])
  let f23 ← (if pyIn "/r    S-T-O" item then do
      let cell ← listAtS cells idx
      let toks := pySplitWs cell
      let t0 ← listAtS toks 0
      let v ← (match lookupTable elongMap2 t0 with
        | some v => Except.ok v
        | none => Except.error PyErr.keyError)
      let t1 ← listAtS toks 1
      let alpha := match parseFloatQ t1.toList with
        | some q => [("alpha", Val.vnum q)]
        | none => [("alpha", Val.vnan)]
      return ("elongFlag", Val.vstr v) :: alpha
    else if pyIn "S-T-O" item then
      tryFloatField "alpha" cells idx id
    else if pyIn "/r" item then do
      let cell ← listAtS cells idx
      match lookupTable elongMap3 cell with
      | some v => return [("elongFlag", Val.vstr v)]
      | none => Except.error PyErr.keyError
    else return [])
  return f19 ++ f20 ++ f21 ++ f22 ++ f23

/-- Rules 24-30: the two position angles, the galactic coordinates, the two
uncertainties, and the total-magnitude column that feeds V for comets. -/
def ephFieldsE (cells : List String) (idx : Nat) (item : String) :
    Except PyErr (List (String × Val)) := do
  let f24 ← (if pyIn "PsAng" item then tryFloatField "sunTargetPA" cells idx id
    else return [])
  let f25 ← (if pyIn "PsAMV" item then tryFloatField "velocityPA" cells idx id
    else return [])
  let f26 ← (if pyIn "GlxLon" item then tryFloatField "GlxLon" cells idx id
    else return [])
  let f27 ← (if pyIn "GlxLat" item then tryFloatField "GlxLat" cells idx id
    else return [])
  let f28 ← (if pyIn "RA_3sigma" item then tryFloatField "RA_3sigma" cells idx id
    else return [])
  let f29 ← (if pyIn "DEC_3sigma" item then tryFloatField "DEC_3sigma" cells idx id
    else return [])
  let f30 ← (if pyIn "T-mag" item then tryFloatField "V" cells idx id
    else return [])
  return f24 ++ f25 ++ f26 ++ f27 ++ f28 ++ f29 ++ f30

/-- The ephemerides field-identification rules for one header item: the
thirty source rules in order, split here into five groups purely to keep
each definition small. -/
def ephItemFields (headerline : List String) (cells : List String) (idx : Nat)
    (item : String) : Except PyErr (List (String × Val)) := do
  let a ← ephFieldsA cells idx item
  let b ← ephFieldsB cells idx item
  let c ← ephFieldsC headerline cells idx item
  let d ← ephFieldsD cells idx item
  let e ← ephFieldsE cells idx item
  return a ++ b ++ c ++ d ++ e

/-- One datablock line of the ephemerides loop: rows with fewer cells than
the sixteen requested quantities are skipped; otherwise every header item is
processed in order and the target name (an unbound local, hence NameError,
when no target line was seen), H and G are appended. -/
def ephRow (headerline : List String) (targetname : Option String) (H G : Val)
    (line : String) : Except PyErr (Option (List (String × Val))) := do
  let cells := pySplitChar ',' line
  if cells.length < 16 then
    return none
  else
    let fs ← headerline.enum.foldlM
      (fun acc (p : Nat × String) => do
        let f ← ephItemFields headerline cells p.1 p.2
        return acc ++ f)
      ([] : List (String × Val))
    let tn ← (match targetname with
      | some t => Except.ok t
      | none => Except.error PyErr.nameError)
    return some (fs ++ [("targetname", Val.vstr tn), ("H", H), ("G", G)])

/-- The outcome of one response parse: the integer zero with no table stored
(the source returns 0 and leaves self.data untouched), or a table of rows. -/
inductive ParseOutcome where
  | noData
  | table (rows : List (List (String × Val)))
  deriving DecidableEq, Repr

/-- The parsing portion of get_ephemerides, applied to the already-fetched
response lines: scan, decode the datablock rows, return the zero outcome on
an empty row list, and build the table after the length assertion of the
source (first row against the field list of the last processed row). -/
def parseEphemerides (src : List String) : Except PyErr ParseOutcome := do
  let st ← scanLines "Date__(UT)__HR:MN" initScanState src
  let rows ← st.datablock.foldlM
    (fun acc line => do
      match ← ephRow st.headerline st.targetname st.hconst st.gconst line with
      | some r => pure (acc ++ [r])
      | none => pure acc)
    ([] : List (List (String × Val)))
  if rows.isEmpty then
    return .noData
  else if (rows.headD []).length = (rows.getLastD []).length then
    return .table rows
  else
    Except.error .assertionError

/-! ### Response parsing: the elements field-identification rules -/

/-- The elements field-identification rules for one header item, in source
order.  None of the numeric conversions here is wrapped in a try block.
The semi-major-axis rule demands a trimmed length of one besides containing
the letter A; the argument-of-perifocus rule only demands containment of
the letter W. -/
def elemItemFields (cells : List String) (idx : Nat) (item : String) :
    Except PyErr (List (String × Val)) := do
  let f1 ← (if pyIn "JDTDB" item then floatField "datetime_jd" cells idx
    else return [])
  let f2 ← (if pyIn "EC" item then floatField "e" cells idx else return [])
  let f3 ← (if pyIn "QR" item then floatField "p" cells idx else return [])
  let f4 ← (if pyIn "A" item && (pyStrip item.toList).length = 1 then
      floatField "a" cells idx else return [])
  let f5 ← (if pyIn "IN" item then floatField "incl" cells idx else return [])
  let f6 ← (if pyIn "OM" item then floatField "node" cells idx else return [])
  let f7 ← (if pyIn "W" item then floatField "argper" cells idx else return [])
  let f8 ← (if pyIn "Tp" item then floatField "Tp" cells idx else return [])
  let f9 ← (if pyIn "MA" item then floatField "meananomaly" cells idx
    else return [])
  let f10 ← (if pyIn "TA" item then floatField "trueanomaly" cells idx
    else return [])
  let f11 ← (if pyIn "PR" item then
      floatFieldScaled "period" cells idx (fun q => qDiv q ⟨365256, 1000⟩)
    else return [])
  let f12 ← (if pyIn "AD" item then floatField "Q" cells idx else return [])
  return f1 ++ f2 ++ f3 ++ f4 ++ f5 ++ f6 ++ f7 ++ f8 ++ f9 ++ f10 ++ f11 ++ f12

/-- One datablock line of the elements loop: no minimum-cell check exists
here; every line yields a row, extended by the target name, H and G. -/
def elemRow (headerline : List String) (targetname : Option String) (H G : Val)
    (line : String) : Except PyErr (List (String × Val)) := do
  let cells := pySplitChar ',' line
  let fs ← headerline.enum.foldlM
    (fun acc (p : Nat × String) => do
      let f ← elemItemFields cells p.1 p.2
      return acc ++ f)
    ([] : List (String × Val))
  let tn ← (match targetname with
    | some t => Except.ok t
    | none => Except.error PyErr.nameError)
  return fs ++ [("targetname", Val.vstr tn), ("H", H), ("G", G)]

/-- The parsing portion of get_elements, applied to the already-fetched
response lines: same scan with the JDTDB header marker, row decoding with no
skip rule, the zero outcome on an empty row list, and the length assertion
of the source. -/
def parseElements (src : List String) : Except PyErr ParseOutcome := do
  let st ← scanLines "JDTDB," initScanState src
  let rows ← st.datablock.foldlM
    (fun acc line => do
      let r ← elemRow st.headerline st.targetname st.hconst st.gconst line
      pure (acc ++ [r]))
    ([] : List (List (String × Val)))
  if rows.isEmpty then
    return .noData
  else if (rows.headD []).length = (rows.getLastD []).length then
    return .table rows
  else
    Except.error .assertionError

/-! ### Concrete response blobs used by the theorems below -/

/-- An ephemerides response with one decodable row: the airmass cell is the
literal n.a. and the solar-presence flag cell is an unknown key. -/
def ephBlobDegrade : List String :=
  ["Target body name: Foo Bar\n",
   " Date__(UT)__HR:MN, Date_________JDUT, , , R.A._(ICRF/J2000.0), DEC_(ICRF/J2000.0),  a-mass,\n",
   "$$SOE\n",
   " 2000-Jan-01 00:00, 2451544.5,x,m, 188.70187, 9.09786, n.a.,,,,,,,,,,\n",
   "$$EOE\n"]

/-- The same response with the RA cell replaced by the literal n.a. -/
def ephBlobRAbort : List String :=
  ["Target body name: Foo Bar\n",
   " Date__(UT)__HR:MN, Date_________JDUT, , , R.A._(ICRF/J2000.0), DEC_(ICRF/J2000.0),  a-mass,\n",
   "$$SOE\n",
   " 2000-Jan-01 00:00, 2451544.5,x,m, n.a., 9.09786, 1.5,,,,,,,,,,\n",
   "$$EOE\n"]

/-- An ephemerides response whose data block is present but empty. -/
def ephBlobEmptyBlock : List String :=
  ["Target body name: Foo Bar\n",
   " Date__(UT)__HR:MN, Date_________JDUT, , , R.A._(ICRF/J2000.0), DEC_(ICRF/J2000.0),  a-mass,\n",
   "$$SOE\n", "$$EOE\n"]

/-- A blob with no recognizable header and no data block at all. -/
def ephBlobNoHeader : List String := ["hello\n"]

/-- An elements response whose data block is present but empty. -/
def elemBlobEmptyBlock : List String :=
  ["Target body name: Foo Bar\n", "JDTDB,EC,\n", "$$SOE\n", "$$EOE\n"]

/-- An elements response with a two-letter header label containing W. -/
def elemBlobQW : List String :=
  ["Target body name: Foo Bar\n", "JDTDB,QW\n", "$$SOE\n", "2451544.5,7.5\n",
   "$$EOE\n"]

/-- A blob whose small-body match marker is followed by the no-matches
marker, with a multiple-major-bodies marker on a later line. -/
def scanBlobMixed : List String :=
  ["Matching small-bodies\n", "No matches found\n",
   "Multiple major-bodies match string\n"]

/-! ### Theorems for the claims -/

instance {ε α : Type} [DecidableEq ε] [DecidableEq α] :
    DecidableEq (Except ε α) := fun a b =>
  match a, b with
  | .error e, .error f =>
    if h : e = f then isTrue (by rw [h]) else isFalse (by simpa using h)
  | .error _, .ok _ => isFalse (by simp)
  | .ok _, .error _ => isFalse (by simp)
  | .ok x, .ok y =>
    if h : x = y then isTrue (by rw [h]) else isFalse (by simpa using h)

/-- An upper-case letter is not a digit. -/
theorem upper_not_digit (c : Char) (h : pyIsUpper c = true) :
    pyIsDigit c = false := by
  simp only [pyIsUpper, Bool.and_eq_true, decide_eq_true_eq] at h
  rw [← Bool.not_eq_true]
  simp only [pyIsDigit, Bool.and_eq_true, decide_eq_true_eq, not_and]
  intro h1
  omega

/-- A lower-case letter is not a digit. -/
theorem lower_not_digit (c : Char) (h : pyIsLower c = true) :
    pyIsDigit c = false := by
  simp only [pyIsLower, Bool.and_eq_true, decide_eq_true_eq] at h
  rw [← Bool.not_eq_true]
  simp only [pyIsDigit, Bool.and_eq_true, decide_eq_true_eq, not_and]
  intro h1
  omega

/-- A lower-case letter is not an upper-case letter. -/
theorem lower_not_upper (c : Char) (h : pyIsLower c = true) :
    pyIsUpper c = false := by
  simp only [pyIsLower, Bool.and_eq_true, decide_eq_true_eq] at h
  rw [← Bool.not_eq_true]
  simp only [pyIsUpper, Bool.and_eq_true, decide_eq_true_eq, not_and]
  intro h1
  omega

/-- C7: _char2int maps every decimal digit character to its value, every
upper-case letter to 10 plus its alphabet index, and every lower-case letter
to 36 plus its alphabet index. -/
theorem char2int_maps_alnum (c : Char) :
    (pyIsDigit c = true → _char2int c = .ok (c.toNat - 48)) ∧
    (pyIsUpper c = true → _char2int c = .ok (10 + (c.toNat - 65))) ∧
    (pyIsLower c = true → _char2int c = .ok (36 + (c.toNat - 97))) := by
  refine ⟨fun h => ?_, fun h => ?_, fun h => ?_⟩
  · simp [_char2int, h, digitVal]
  · simp [_char2int, int36Char, h, upper_not_digit c h]
  · simp only [_char2int, int36Char, h, lower_not_digit c h,
      lower_not_upper c h, Bool.false_eq_true, if_false, if_true]
    congr 1
    omega

/-- Witness for C7 at the digit 7, the capital Q and the small f. -/
theorem char2int_maps_alnum_witness :
    _char2int '7' = .ok 7 ∧ _char2int 'Q' = .ok 26 ∧ _char2int 'f' = .ok 41 :=
  ⟨(char2int_maps_alnum '7').1 (by decide),
   (char2int_maps_alnum 'Q').2.1 (by decide),
   (char2int_maps_alnum 'f').2.2 (by decide)⟩

/-- C10: before any successful query the stored data is None, and the
accessors degrade: len gives 0, fields gives the empty sequence, and item
access returns None (after printing a notice) instead of raising. -/
theorem accessors_degrade_before_query (key : String) :
    lenAccessor initData = 0 ∧ fieldsAccessor initData = [] ∧
    getitemAccessor initData key = .ok none :=
  ⟨rfl, rfl, rfl⟩

/-- C1 (the code bug): with the comet hint set, classification does not
produce a comet designation: iscomet executes the statement return true with
an undefined lower-case name and raises NameError, which propagates through
the COMMAND selection of get_ephemerides for every non-orbit-record target
name. -/
theorem comet_hint_raises_nameerror (asteroid : Bool) (tn : String)
    (h : isorbit_record tn = false) :
    chooseCommand false true asteroid true tn = .error .nameError := by
  simp only [chooseCommand, h, iscomet, if_true, if_false, Bool.false_eq_true,
    Bool.true_eq_false, ite_false, ite_true]

/-- Witness for C1 at the canonical comet name 1P/Halley. -/
theorem comet_hint_raises_nameerror_witness :
    chooseCommand false true false true "1P/Halley" = .error .nameError :=
  comet_hint_raises_nameerror false "1P/Halley" (by decide)

/-- C2 (the code bug): isasteroid never answers false, because the source
compares the bool result of any(...) against None with the is-not operator;
in particular the comet-style designation 2017 U1, from which the asteroid
grammar extracts nothing, still counts as an asteroid, and the name zz,
matched by neither grammar, is routed into the asteroid branch with the raw
target name instead of falling through to the opaque COMMAND. -/
theorem isasteroid_never_false :
    (∀ (a : Bool) (tn : String), isasteroid a tn ≠ .ok false) ∧
    parse_asteroid "2017 U1" = .ok (none, none, none) ∧
    isasteroid false "2017 U1" = .ok true ∧
    parse_asteroid "zz" = .ok (none, none, none) ∧
    chooseCommand false false false true "zz" = .ok (.asteroidDes "zz") := by
  refine ⟨fun a tn => ?_, by decide, by decide, by decide, by decide⟩
  cases a with
  | true => simp [isasteroid]
  | false =>
    cases hp : parse_asteroid tn with
    | error e => simp [isasteroid, hp]
    | ok t => simp [isasteroid, hp, pyIsNotNone]

/-- A character equation refuted by the numeric codes. -/
theorem char_eq_false_of_toNat_ne {c d : Char} (h : ¬ c.toNat = d.toNat) :
    (c = d) = False :=
  eq_false (fun he => h (congrArg Char.toNat he))

/-- A bounded character differs from a character outside the bounds. -/
theorem notin_class_of_bounds (c : Char) (lo hi : Nat) (h1 : lo ≤ c.toNat)
    (h2 : c.toNat ≤ hi) (d : Char) (hd : d.toNat < lo ∨ hi < d.toNat) :
    (c = d) = False :=
  char_eq_false_of_toNat_ne (by omega)

/-- The numeric bounds of a digit. -/
theorem digit_bounds (c : Char) (h : pyIsDigit c = true) :
    48 ≤ c.toNat ∧ c.toNat ≤ 57 := by
  simpa [pyIsDigit, Bool.and_eq_true, decide_eq_true_eq] using h

/-- The numeric bounds of an upper-case letter. -/
theorem upper_bounds (c : Char) (h : pyIsUpper c = true) :
    65 ≤ c.toNat ∧ c.toNat ≤ 90 := by
  simpa [pyIsUpper, Bool.and_eq_true, decide_eq_true_eq] using h

/-- The numeric bounds of a lower-case letter. -/
theorem lower_bounds (c : Char) (h : pyIsLower c = true) :
    97 ≤ c.toNat ∧ c.toNat ≤ 122 := by
  simpa [pyIsLower, Bool.and_eq_true, decide_eq_true_eq] using h

/-- A digit is not whitespace. -/
theorem digit_not_space (c : Char) (h : pyIsDigit c = true) :
    pyIsSpace c = false := by
  obtain ⟨h1, h2⟩ := digit_bounds c h
  simp [pyIsSpace, notin_class_of_bounds c 48 57 h1 h2 ' ' (by decide),
    notin_class_of_bounds c 48 57 h1 h2 '\t' (by decide),
    notin_class_of_bounds c 48 57 h1 h2 '\n' (by decide),
    notin_class_of_bounds c 48 57 h1 h2 '\r' (by decide),
    notin_class_of_bounds c 48 57 h1 h2 '\x0b' (by decide),
    notin_class_of_bounds c 48 57 h1 h2 '\x0c' (by decide)]

/-- An upper-case letter is not whitespace. -/
theorem upper_not_space (c : Char) (h : pyIsUpper c = true) :
    pyIsSpace c = false := by
  obtain ⟨h1, h2⟩ := upper_bounds c h
  simp [pyIsSpace, notin_class_of_bounds c 65 90 h1 h2 ' ' (by decide),
    notin_class_of_bounds c 65 90 h1 h2 '\t' (by decide),
    notin_class_of_bounds c 65 90 h1 h2 '\n' (by decide),
    notin_class_of_bounds c 65 90 h1 h2 '\r' (by decide),
    notin_class_of_bounds c 65 90 h1 h2 '\x0b' (by decide),
    notin_class_of_bounds c 65 90 h1 h2 '\x0c' (by decide)]

/-- A lower-case letter is not whitespace. -/
theorem lower_not_space (c : Char) (h : pyIsLower c = true) :
    pyIsSpace c = false := by
  obtain ⟨h1, h2⟩ := lower_bounds c h
  simp [pyIsSpace, notin_class_of_bounds c 97 122 h1 h2 ' ' (by decide),
    notin_class_of_bounds c 97 122 h1 h2 '\t' (by decide),
    notin_class_of_bounds c 97 122 h1 h2 '\n' (by decide),
    notin_class_of_bounds c 97 122 h1 h2 '\r' (by decide),
    notin_class_of_bounds c 97 122 h1 h2 '\x0b' (by decide),
    notin_class_of_bounds c 97 122 h1 h2 '\x0c' (by decide)]

/-- A digit is neither a space nor an underscore. -/
theorem digit_not_spaceOrUnderscore (c : Char) (h : pyIsDigit c = true) :
    spaceOrUnderscore c = false := by
  obtain ⟨h1, h2⟩ := digit_bounds c h
  simp [spaceOrUnderscore, notin_class_of_bounds c 48 57 h1 h2 ' ' (by decide),
    notin_class_of_bounds c 48 57 h1 h2 '_' (by decide)]

/-- An upper-case letter is neither a space nor an underscore. -/
theorem upper_not_spaceOrUnderscore (c : Char) (h : pyIsUpper c = true) :
    spaceOrUnderscore c = false := by
  obtain ⟨h1, h2⟩ := upper_bounds c h
  simp [spaceOrUnderscore, notin_class_of_bounds c 65 90 h1 h2 ' ' (by decide),
    notin_class_of_bounds c 65 90 h1 h2 '_' (by decide)]

/-- A lower-case letter is neither a space nor an underscore. -/
theorem lower_not_spaceOrUnderscore (c : Char) (h : pyIsLower c = true) :
    spaceOrUnderscore c = false := by
  obtain ⟨h1, h2⟩ := lower_bounds c h
  simp [spaceOrUnderscore, notin_class_of_bounds c 97 122 h1 h2 ' ' (by decide),
    notin_class_of_bounds c 97 122 h1 h2 '_' (by decide)]

/-- An upper-case letter is not in the class of the digits 1 and 2. -/
theorem upper_not_digit12 (c : Char) (h : pyIsUpper c = true) :
    digit12 c = false := by
  obtain ⟨h1, h2⟩ := upper_bounds c h
  simp [digit12, notin_class_of_bounds c 65 90 h1 h2 '1' (by decide),
    notin_class_of_bounds c 65 90 h1 h2 '2' (by decide)]

/-- A lower-case letter is not in the class of the digits 1 and 2. -/
theorem lower_not_digit12 (c : Char) (h : pyIsLower c = true) :
    digit12 c = false := by
  obtain ⟨h1, h2⟩ := lower_bounds c h
  simp [digit12, notin_class_of_bounds c 97 122 h1 h2 '1' (by decide),
    notin_class_of_bounds c 97 122 h1 h2 '2' (by decide)]

/-- An upper-case letter is not a digit of 1-9. -/
theorem upper_not_digit19 (c : Char) (h : pyIsUpper c = true) :
    digit19 c = false := by
  obtain ⟨h1, h2⟩ := upper_bounds c h
  rw [← Bool.not_eq_true]
  simp only [digit19, Bool.and_eq_true, decide_eq_true_eq, not_and]
  intro hc
  omega

/-- A lower-case letter is not a digit of 1-9. -/
theorem lower_not_digit19 (c : Char) (h : pyIsLower c = true) :
    digit19 c = false := by
  obtain ⟨h1, h2⟩ := lower_bounds c h
  rw [← Bool.not_eq_true]
  simp only [digit19, Bool.and_eq_true, decide_eq_true_eq, not_and]
  intro hc
  omega

/-- A digit is not an upper-case letter. -/
theorem digit_not_upper (c : Char) (h : pyIsDigit c = true) :
    pyIsUpper c = false := by
  obtain ⟨h1, h2⟩ := digit_bounds c h
  rw [← Bool.not_eq_true]
  simp only [pyIsUpper, Bool.and_eq_true, decide_eq_true_eq, not_and]
  intro hc
  omega

/-- A digit is not a lower-case letter. -/
theorem digit_not_lower (c : Char) (h : pyIsDigit c = true) :
    pyIsLower c = false := by
  obtain ⟨h1, h2⟩ := digit_bounds c h
  rw [← Bool.not_eq_true]
  simp only [pyIsLower, Bool.and_eq_true, decide_eq_true_eq, not_and]
  intro hc
  omega

/-- An upper-case letter is not a lower-case letter. -/
theorem upper_not_lower (c : Char) (h : pyIsUpper c = true) :
    pyIsLower c = false := by
  obtain ⟨h1, h2⟩ := upper_bounds c h
  rw [← Bool.not_eq_true]
  simp only [pyIsLower, Bool.and_eq_true, decide_eq_true_eq, not_and]
  intro hc
  omega

/-- A digit of 1-9 is a digit. -/
theorem digit19_digit (c : Char) (h : digit19 c = true) : pyIsDigit c = true := by
  simp only [digit19, Bool.and_eq_true, decide_eq_true_eq] at h
  simp only [pyIsDigit, Bool.and_eq_true, decide_eq_true_eq]
  omega

/-- A digit is a word character. -/
theorem digit_word (c : Char) (h : pyIsDigit c = true) : isWordChar c = true := by
  simp [isWordChar, h]

/-- An upper-case letter is a word character. -/
theorem upper_word (c : Char) (h : pyIsUpper c = true) : isWordChar c = true := by
  simp [isWordChar, pyIsAlpha, h]

/-- An upper-case letter is a letter. -/
theorem upper_alpha (c : Char) (h : pyIsUpper c = true) : pyIsAlpha c = true := by
  simp [pyIsAlpha, h]

/-- A lower-case letter is a letter. -/
theorem lower_alpha (c : Char) (h : pyIsLower c = true) : pyIsAlpha c = true := by
  simp [pyIsAlpha, h]

/-- A digit is left unchanged by the parenthesis-to-blank translation. -/
theorem digit_translate (c : Char) (h : pyIsDigit c = true) :
    (if c = '(' || c = ')' then ' ' else c) = c := by
  obtain ⟨h1, h2⟩ := digit_bounds c h
  simp [notin_class_of_bounds c 48 57 h1 h2 '(' (by decide),
    notin_class_of_bounds c 48 57 h1 h2 ')' (by decide)]

/-- An upper-case letter is left unchanged by the translation. -/
theorem upper_translate (c : Char) (h : pyIsUpper c = true) :
    (if c = '(' || c = ')' then ' ' else c) = c := by
  obtain ⟨h1, h2⟩ := upper_bounds c h
  simp [notin_class_of_bounds c 65 90 h1 h2 '(' (by decide),
    notin_class_of_bounds c 65 90 h1 h2 ')' (by decide)]

/-- A lower-case letter is left unchanged by the translation. -/
theorem lower_translate (c : Char) (h : pyIsLower c = true) :
    (if c = '(' || c = ')' then ' ' else c) = c := by
  obtain ⟨h1, h2⟩ := lower_bounds c h
  simp [notin_class_of_bounds c 97 122 h1 h2 '(' (by decide),
    notin_class_of_bounds c 97 122 h1 h2 ')' (by decide)]

/-- The century-decode mapping as the claim states it: a digit carries its
value, an upper-case letter 10 plus its alphabet index, a lower-case letter
36 plus its alphabet index. -/
def decodeC (c : Char) : Nat :=
  if pyIsDigit c then digitVal c
  else if pyIsUpper c then 10 + (c.toNat - 65)
  else 36 + (c.toNat - 97)

/-- The unpacked designation as the claim describes it: century-decoded
leading character, the two literal digits, a space, the half-month letter
and the trailing letter, and the order number with leading zeros
stripped. -/
def claimUnpack7 (c0 d1 d2 hm x d o : Char) : List Char :=
  pyStrNat (decodeC c0) ++ [d1, d2] ++ [' '] ++ [hm, o] ++
    lstripZeros (pyStrNat (decodeC x) ++ [d])

/-- The scan of the empty input finds nothing. -/
theorem scanFindall_nil {G : Type} (step : Bool → List Char → Option (G × List Char))
    (fuel : Nat) (first : Bool) : scanFindall step fuel first [] = [] := by
  cases fuel <;> rfl

/-- A failed match attempt advances the scan one position. -/
theorem scanFindall_cons_none {G : Type}
    (step : Bool → List Char → Option (G × List Char)) (fuel : Nat)
    (first : Bool) (c : Char) (t : List Char) (h : step first (c :: t) = none) :
    scanFindall step (fuel + 1) first (c :: t) = scanFindall step fuel false t := by
  simp [scanFindall, h]

/-- A successful match attempt records its groups and resumes after it. -/
theorem scanFindall_cons_some {G : Type}
    (step : Bool → List Char → Option (G × List Char)) (fuel : Nat)
    (first : Bool) (c : Char) (t rest : List Char) (g : G)
    (h : step first (c :: t) = some (g, rest)) :
    scanFindall step (fuel + 1) first (c :: t) =
      g :: scanFindall step fuel false rest := by
  simp [scanFindall, h]

/-- The successor-mapped find position is never position zero. -/
theorem optmap_succ_ne_zero (o : Option Nat) :
    (Option.map (fun n => n + 1) o = some 0) = False := by
  cases o <;> simp

/-- C6 counterexample: the seven-character string A95X00A has the claimed
letter-or-digit, two digits, letter, alphanumeric, digit, letter shape, yet
parse_asteroid extracts nothing from it — the packed-designation alternative
of the pattern only admits a leading I, J, K or L — instead of returning the
unpacked designation 1095 XA. -/
theorem packed_nonIJKL_not_unpacked :
    parse_asteroid "A95X00A" = .ok (none, none, none) := by decide

/-- C3 counterexample: a decode failure of the RA field (there is no try
block around its conversion) aborts the whole parse with a ValueError
instead of substituting the not-a-number sentinel and keeping the row. -/
theorem ra_failure_aborts_row :
    parseEphemerides ephBlobRAbort = .error .valueError := by decide

/-- C3 amended: fallback is per rule, not universal.  The fields converted
inside try blocks degrade (airmass cell n.a. becomes nan) and a failed
solar-presence lookup degrades to the n.a. label while the rest of the row
decodes; but a decode failure of RA (likewise DEC or datetime_jd, none of
which have a try block, or an elongation-flag lookup) propagates as an
exception and produces no table. -/
theorem per_field_fallback_is_partial :
    parseEphemerides ephBlobDegrade = .ok (.table
      [[("datetime", Val.vstr "2000-Jan-01 00:00"),
        ("datetime_jd", Val.vnum ⟨24515445, 10⟩),
        ("solar_presence", Val.vstr "n.a."),
        ("lunar_presence", Val.vstr "moonlight"),
        ("RA", Val.vnum ⟨18870187, 100000⟩),
        ("DEC", Val.vnum ⟨909786, 100000⟩),
        ("airmass", Val.vnan),
        ("targetname", Val.vstr "Foo Bar"),
        ("H", Val.vnan), ("G", Val.vnan)]]) ∧
    parseEphemerides ephBlobRAbort = .error .valueError := by decide

/-- C5 counterexample: a blob whose data block is present but empty and a
blob with no recognizable content at all produce the very same outcome (the
zero return with no stored table), so the two cases are not distinguishable
to the caller. -/
theorem empty_block_indistinguishable :
    parseEphemerides ephBlobEmptyBlock = parseEphemerides ephBlobNoHeader ∧
    parseEphemerides ephBlobEmptyBlock = .ok .noData := by decide

/-- C5 amended: both parsers collapse the found-but-empty data block and the
structurally unrecognizable blob into the single zero outcome, storing no
table in either case. -/
theorem zero_rows_collapse :
    parseEphemerides ephBlobEmptyBlock = .ok .noData ∧
    parseEphemerides ephBlobNoHeader = .ok .noData ∧
    parseElements elemBlobEmptyBlock = .ok .noData ∧
    parseElements ephBlobNoHeader = .ok .noData := by decide

/-- C4 counterexample: a blob whose small-body marker line is followed by
the no-matches marker raises the unknown-target error even though a later
line carries the multiple-major-bodies marker, so the ambiguous error is not
raised exactly when some line carries that marker: the first trigger in line
order wins. -/
theorem later_major_marker_ignored :
    parseEphemerides scanBlobMixed = .error .unknownTarget ∧
    pyIn "Multiple major-bodies match string"
      "Multiple major-bodies match string\n" = true := by decide

/-- The classified error that one scanned line triggers, given its successor
when there is one: the multiple-major-bodies marker (or the small-body
marker not followed by the no-matches marker) means ambiguous; the
small-body marker followed by the no-matches marker means unknown; the
small-body marker on the final line means an out-of-range lookahead.  This
mirrors the two raise conditions of the scan loop verbatim. -/
def lineTrigger (line : String) (next1 : Option String) : Option PyErr :=
  if pyIn "Multiple major-bodies match string" line then some .ambiguousTarget
  else if pyIn "Matching small-bodies" line then
    match next1 with
    | none => some .indexError
    | some n1 =>
      if !(pyIn "No matches found" n1) then some .ambiguousTarget
      else some .unknownTarget
  else none

/-- The trigger of the earliest line (in scan order) that triggers. -/
def firstTrigger : List String → Option PyErr
  | [] => none
  | line :: rest =>
    match lineTrigger line rest.head? with
    | some e => some e
    | none => firstTrigger rest

/-- The error component of an Except value. -/
def exceptErr {α : Type} : Except PyErr α → Option PyErr
  | .error e => some e
  | .ok _ => none

/-- A rotational-period-free line either raises its trigger or performs the
pure state updates. -/
theorem scanLine_eq_trigger (marker : String) (st : ScanState) (line : String)
    (n1 n2 : Option String)
    (hrot : pyIn "rotational period in hours)" line = false) :
    scanLine marker st line n1 n2 =
      (match lineTrigger line n1 with
       | some e => .error e
       | none => .ok (scanUpdates marker st line)) := by
  unfold scanLine lineTrigger
  simp only [hrot, Bool.false_eq_true, if_false]
  by_cases h1 : pyIn "Multiple major-bodies match string" line = true
  · simp [h1]
  · have h1f : pyIn "Multiple major-bodies match string" line = false :=
      Bool.eq_false_iff.mpr h1
    by_cases h2 : pyIn "Matching small-bodies" line = true
    · cases n1 with
      | none => simp [h1f, h2]
      | some nx =>
        by_cases h3 : pyIn "No matches found" nx = true
        · simp [h1f, h2, h3]
        · simp [h1f, h2, Bool.eq_false_iff.mpr h3]
    · simp [h1f, Bool.eq_false_iff.mpr h2]

/-- C4 amended: over blobs free of the rotational-period marker (whose own
lookahead can raise), the scan raises exactly the classified error of the
earliest triggering line, in scan order — ambiguous when that line carries
the multiple-major-bodies marker or carries the small-body marker with a
successor lacking the no-matches marker, unknown when its successor carries
the no-matches marker, and an out-of-range error when the small-body marker
sits on the final line; when no line triggers, the scan returns its state
without error.  Which error is raised is decided by the first trigger, not
by the presence of a marker anywhere in the blob. -/
theorem scan_raises_first_trigger (marker : String) (src : List String)
    (hrot : ∀ line ∈ src, pyIn "rotational period in hours)" line = false) :
    ∀ st, exceptErr (scanLines marker st src) = firstTrigger src := by
  induction src with
  | nil => intro st; rfl
  | cons line rest ih =>
    intro st
    have hline : pyIn "rotational period in hours)" line = false :=
      hrot line (by simp)
    have hrest : ∀ l ∈ rest, pyIn "rotational period in hours)" l = false :=
      fun l hl => hrot l (by simp [hl])
    have hstep := scanLine_eq_trigger marker st line rest.head?
      ((rest.drop 1).head?) hline
    cases htrig : lineTrigger line rest.head? with
    | some e =>
      have hstep2 : scanLine marker st line rest.head? ((rest.drop 1).head?) =
          .error e := by rw [hstep, htrig]
      simp only [List.head?_drop] at hstep2
      simp [scanLines, hstep2, firstTrigger, htrig, exceptErr]
    | none =>
      have hstep2 : scanLine marker st line rest.head? ((rest.drop 1).head?) =
          .ok (scanUpdates marker st line) := by rw [hstep, htrig]
      simp only [scanLines, hstep2, firstTrigger, htrig]
      exact ih hrest (scanUpdates marker st line)

/-- Witness for the amended C4 at the mixed-marker blob: the scan raises the
unknown-target error, the trigger of the first line, although a later line
carries the multiple-major-bodies marker. -/
theorem scan_raises_first_trigger_witness :
    exceptErr (scanLines "Date__(UT)__HR:MN" initScanState scanBlobMixed) =
      firstTrigger scanBlobMixed ∧
    firstTrigger scanBlobMixed = some PyErr.unknownTarget :=
  ⟨scan_raises_first_trigger "Date__(UT)__HR:MN" scanBlobMixed (by decide)
    initScanState, by decide⟩

/-- Pull a bind over an if whose branches are both pure. -/
theorem bind_ite_ok {c : Prop} [Decidable c] {β : Type}
    (a : List (String × Val)) (f : List (String × Val) → Except PyErr β) :
    ((if c then (Except.ok a : Except PyErr (List (String × Val)))
      else pure []) >>= f) = f (if c then a else []) := by
  split
  · rfl
  · rfl

/-- floatField on the concrete cell 1.5. -/
theorem floatField_cell15 (n : String) :
    floatField n ["1.5"] 0 = .ok [(n, Val.vnum ⟨15, 10⟩)] := rfl

/-- floatFieldScaled on the concrete cell 1.5 with the period scale. -/
theorem floatFieldScaled_cell15 :
    floatFieldScaled "period" ["1.5"] 0 (fun q => qDiv q ⟨365256, 1000⟩) =
      .ok [("period", Val.vnum ⟨15000, 3652560⟩)] := rfl

/-- The membership test of an if-guarded singleton segment. -/
theorem any_ite_singleton {c : Prop} [Decidable c] (n m : String) (v : Val) :
    (if c then [(n, v)] else ([] : List (String × Val))).any
      (fun p => decide (p.1 = m)) = (decide c && decide (n = m)) := by
  by_cases h : c <;> simp [h]

/-- C9 counterexample: the header label QW has trimmed length two, yet the
argument-of-perifocus rule fires on it (the rule tests only substring
containment of W, with no trimmed-length check, unlike the
semi-major-axis rule for A). -/
theorem argper_fires_on_two_letter_label :
    parseElements elemBlobQW = .ok (.table
      [[("datetime_jd", Val.vnum ⟨24515445, 10⟩),
        ("argper", Val.vnum ⟨75, 10⟩),
        ("targetname", Val.vstr "Foo Bar"),
        ("H", Val.vnan), ("G", Val.vnan)]]) ∧
    (pyStrip ("QW\n".toList)).length = 2 := by decide

/-- C9 amended: in the orbital-elements schema rules, only the
semi-major-axis rule guards its single-letter label with a trimmed-length
test: for every header label, the a field is assigned exactly when the label
contains A and trims to length one, while the argper field is assigned
exactly when the label merely contains W, with no length test at all.
Stated over one header cell with the always-decodable data cell 1.5. -/
theorem elem_single_letter_rules (item : String) :
    ∃ fs, elemItemFields ["1.5"] 0 item = .ok fs ∧
      fs.any (fun p => decide (p.1 = "argper")) = pyIn "W" item ∧
      fs.any (fun p => decide (p.1 = "a")) =
        (pyIn "A" item && decide ((pyStrip item.toList).length = 1)) := by
  have hnf : elemItemFields ["1.5"] 0 item = .ok
      ((if pyIn "JDTDB" item then [("datetime_jd", Val.vnum ⟨15, 10⟩)] else []) ++
       (if pyIn "EC" item then [("e", Val.vnum ⟨15, 10⟩)] else []) ++
       (if pyIn "QR" item then [("p", Val.vnum ⟨15, 10⟩)] else []) ++
       (if pyIn "A" item && decide ((pyStrip item.toList).length = 1) then
           [("a", Val.vnum ⟨15, 10⟩)] else []) ++
       (if pyIn "IN" item then [("incl", Val.vnum ⟨15, 10⟩)] else []) ++
       (if pyIn "OM" item then [("node", Val.vnum ⟨15, 10⟩)] else []) ++
       (if pyIn "W" item then [("argper", Val.vnum ⟨15, 10⟩)] else []) ++
       (if pyIn "Tp" item then [("Tp", Val.vnum ⟨15, 10⟩)] else []) ++
       (if pyIn "MA" item then [("meananomaly", Val.vnum ⟨15, 10⟩)] else []) ++
       (if pyIn "TA" item then [("trueanomaly", Val.vnum ⟨15, 10⟩)] else []) ++
       (if pyIn "PR" item then [("period", Val.vnum ⟨15000, 3652560⟩)] else []) ++
       (if pyIn "AD" item then [("Q", Val.vnum ⟨15, 10⟩)] else [])) := by
    simp only [elemItemFields, floatField_cell15, floatFieldScaled_cell15,
      bind_ite_ok]
    rfl
  refine ⟨_, hnf, ?_, ?_⟩
  · simp only [List.any_append, any_ite_singleton]
    simp
  · simp only [List.any_append, any_ite_singleton]
    simp


theorem except_bind_ok {e a b : Type} (x : a) (f : a → Except e b) :
    (Except.ok x >>= f) = f x := rfl

theorem pure_ok {e a : Type} (x : a) : (pure x : Except e a) = .ok x := rfl

/-- C6 amended: the packed-designation alternative admits only a leading I,
J, K or L (not an arbitrary letter or digit); for every such
seven-character packed designation, parse_asteroid returns exactly the
unpacked designation built from the century-decoded leading character, the
two literal digits, a space, the half-month and order letters, and the
order number with leading zeros stripped, with no number and no name. -/
theorem packed_IJKL_unpacks (c0 d1 d2 L x d L2 : Char)
    (hc0 : classIJKL c0 = true)
    (hd1 : pyIsDigit d1 = true) (hd2 : pyIsDigit d2 = true)
    (hL : pyIsUpper L = true) (hx : digitOrLower x = true)
    (hd : pyIsDigit d = true) (hL2 : pyIsUpper L2 = true) :
    parse_asteroid (String.mk [c0, d1, d2, L, x, d, L2]) =
      .ok (some (String.mk (claimUnpack7 c0 d1 d2 L x d L2)), none, none) := by
  have hc0' : c0 = 'I' ∨ c0 = 'J' ∨ c0 = 'K' ∨ c0 = 'L' := by
    have h := hc0
    simp only [classIJKL, Bool.or_eq_true, decide_eq_true_eq] at h
    tauto
  have h12 : digit12 c0 = false := by
    rcases hc0' with h | h | h | h <;> rw [h] <;> rfl
  have h19 : digit19 c0 = false := by
    rcases hc0' with h | h | h | h <;> rw [h] <;> rfl
  have hdg : pyIsDigit c0 = false := by
    rcases hc0' with h | h | h | h <;> rw [h] <;> rfl
  have hal : pyIsAlpha c0 = true := by
    rcases hc0' with h | h | h | h <;> rw [h] <;> rfl
  have hsp : pyIsSpace c0 = false := by
    rcases hc0' with h | h | h | h <;> rw [h] <;> rfl
  have htr : (if c0 = '(' || c0 = ')' then ' ' else c0) = c0 := by
    rcases hc0' with h | h | h | h <;> rw [h] <;> rfl
  have hcP : (c0 = 'P') = False := by
    rcases hc0' with h | h | h | h <;> rw [h] <;> simp
  have hcT : (c0 = 'T') = False := by
    rcases hc0' with h | h | h | h <;> rw [h] <;> simp
  have hc2i : _char2int c0 = Except.ok (decodeC c0) := by
    rcases hc0' with h | h | h | h <;> rw [h] <;> rfl
  have hx2 : pyIsDigit x = true ∨ pyIsLower x = true := by
    simpa [digitOrLower, Bool.or_eq_true] using hx
  have hxtr : (if x = '(' || x = ')' then ' ' else x) = x := by
    rcases hx2 with hxd | hxl
    · exact digit_translate x hxd
    · exact lower_translate x hxl
  have hxdec : _char2int x = .ok (decodeC x) := by
    rcases hx2 with hxd | hxl
    · simp [_char2int, decodeC, hxd]
    · simp only [_char2int, int36Char, decodeC, lower_not_digit x hxl,
        lower_not_upper x hxl, hxl, Bool.false_eq_true, if_false, if_true]
      congr 1
      omega
  have hstr : pyStrip [c0, d1, d2, L, x, d, L2] = [c0, d1, d2, L, x, d, L2] := by
    simp [pyStrip, List.dropWhile, upper_not_space L2 hL2, hsp]
  have h1 : pyStrip (translateParens (String.mk [c0, d1, d2, L, x, d, L2]).toList) =
      [c0, d1, d2, L, x, d, L2] := by
    rw [show (String.mk [c0, d1, d2, L, x, d, L2]).toList =
      [c0, d1, d2, L, x, d, L2] from rfl]
    rw [show translateParens [c0, d1, d2, L, x, d, L2] =
        [(if c0 = '(' || c0 = ')' then ' ' else c0),
         (if d1 = '(' || d1 = ')' then ' ' else d1),
         (if d2 = '(' || d2 = ')' then ' ' else d2),
         (if L = '(' || L = ')' then ' ' else L),
         (if x = '(' || x = ')' then ' ' else x),
         (if d = '(' || d = ')' then ' ' else d),
         (if L2 = '(' || L2 = ')' then ' ' else L2)] from rfl]
    rw [htr, digit_translate d1 hd1, digit_translate d2 hd2,
      upper_translate L hL, hxtr, digit_translate d hd, upper_translate L2 hL2]
    exact hstr
  have hnp0 : matchNonPat [c0, d1, d2, L, x, d, L2] = none := by
    simp [matchNonPat, h12]
  have hnp1 : matchNonPat [d1, d2, L, x, d, L2] = none := by
    by_cases h : digit12 d1 = true
    · have hrun : charRun pyIsDigit [d2, L, x, d, L2] = 1 := by
        simp [charRun, List.takeWhile, hd2, upper_not_digit L hL]
      simp [matchNonPat, h, tryRep, hrun, tryCountsFrom,
        upper_not_spaceOrUnderscore L hL, digit_not_spaceOrUnderscore d2 hd2]
    · simp [matchNonPat, Bool.eq_false_iff.mpr h]
  have hnp2 : matchNonPat [d2, L, x, d, L2] = none := by
    by_cases h : digit12 d2 = true
    · have hrun : charRun pyIsDigit [L, x, d, L2] = 0 := by
        simp [charRun, List.takeWhile, upper_not_digit L hL]
      simp [matchNonPat, h, tryRep, hrun, tryCountsFrom,
        upper_not_spaceOrUnderscore L hL]
    · simp [matchNonPat, Bool.eq_false_iff.mpr h]
  have hnp3 : matchNonPat [L, x, d, L2] = none := by
    simp [matchNonPat, upper_not_digit12 L hL]
  have hnp4 : matchNonPat [x, d, L2] = none := by
    by_cases h : digit12 x = true
    · have hrun : charRun pyIsDigit [d, L2] = 1 := by
        simp [charRun, List.takeWhile, hd, upper_not_digit L2 hL2]
      simp [matchNonPat, h, tryRep, hrun, tryCountsFrom,
        upper_not_spaceOrUnderscore L2 hL2, digit_not_spaceOrUnderscore d hd]
    · simp [matchNonPat, Bool.eq_false_iff.mpr h]
  have hnp5 : matchNonPat [d, L2] = none := by
    by_cases h : digit12 d = true
    · have hrun : charRun pyIsDigit [L2] = 0 := by
        simp [charRun, List.takeWhile, upper_not_digit L2 hL2]
      simp [matchNonPat, h, tryRep, hrun, tryCountsFrom,
        upper_not_spaceOrUnderscore L2 hL2]
    · simp [matchNonPat, Bool.eq_false_iff.mpr h]
  have hnp6 : matchNonPat [L2] = none := by
    simp [matchNonPat, upper_not_digit12 L2 hL2]
  have hfnp : findallNonPat [c0, d1, d2, L, x, d, L2] = [] := by
    rw [findallNonPat]
    rw [show ([c0, d1, d2, L, x, d, L2] : List Char).length = 7 from rfl]
    rw [scanFindall_cons_none nonPatStep 6 true c0 [d1, d2, L, x, d, L2]
      (by simp [nonPatStep, hnp0])]
    rw [scanFindall_cons_none nonPatStep 5 false d1 [d2, L, x, d, L2]
      (by simp [nonPatStep, hnp1])]
    rw [scanFindall_cons_none nonPatStep 4 false d2 [L, x, d, L2]
      (by simp [nonPatStep, hnp2])]
    rw [scanFindall_cons_none nonPatStep 3 false L [x, d, L2]
      (by simp [nonPatStep, hnp3])]
    rw [scanFindall_cons_none nonPatStep 2 false x [d, L2]
      (by simp [nonPatStep, hnp4])]
    rw [scanFindall_cons_none nonPatStep 1 false d [L2]
      (by simp [nonPatStep, hnp5])]
    rw [scanFindall_cons_none nonPatStep 0 false L2 []
      (by simp [nonPatStep, hnp6])]
    rfl
  have h2 : rejectNonPat [c0, d1, d2, L, x, d, L2] = [c0, d1, d2, L, x, d, L2] := by
    rw [rejectNonPat, hfnp]
    rfl
  have hstep : astStep true [c0, d1, d2, L, x, d, L2] =
      some (⟨[], [c0, d1, d2, L, x, d, L2], [], [], []⟩, []) := by
    simp [astStep, matchAstDesig, matchPalomar, matchPacked7, hd1, hd2, hL,
      hx, hd, hL2, h12, hc0, h19]
  have h3 : findallAst [c0, d1, d2, L, x, d, L2] =
      [⟨[], [c0, d1, d2, L, x, d, L2], [], [], []⟩] := by
    rw [findallAst]
    rw [show ([c0, d1, d2, L, x, d, L2] : List Char).length = 7 from rfl]
    rw [scanFindall_cons_some astStep 6 true c0 [d1, d2, L, x, d, L2] []
      ⟨[], [c0, d1, d2, L, x, d, L2], [], [], []⟩ hstep]
    rw [scanFindall_nil]
  have h4 : unpack7Branch [c0, d1, d2, L, x, d, L2] =
      .ok ((pyStrNat (decodeC c0) ++ [d1, d2]) ++ ' ' :: L :: L2 ::
        lstripZeros (pyStrNat (decodeC x) ++ [d])) := by
    simp only [unpack7Branch, hstr]
    simp only [show pyAt [c0, d1, d2, L, x, d, L2] 0 = .ok c0 from rfl,
      show pyAt [c0, d1, d2, L, x, d, L2] 3 = .ok L from rfl,
      show pyAt [c0, d1, d2, L, x, d, L2] 4 = .ok x from rfl,
      show pyAt [c0, d1, d2, L, x, d, L2] 5 = .ok d from rfl,
      show pyAt [c0, d1, d2, L, x, d, L2] (-1) = .ok L2 from rfl,
      show pyAt [c0, d1, d2, L, x, d, L2] (-2) = .ok d from rfl,
      hc2i, hxdec, except_bind_ok, pure_ok]
    simp [strIsDigit, strIsAlpha, pyFindPos, startsWithL, optmap_succ_ne_zero,
      hd1, hd2, hd, upper_alpha L2 hL2, hdg, hal, hcP, hcT,
      show pySliceTo [c0, d1, d2, L, x, d, L2] 4 = [c0, d1, d2, L] from rfl,
      show pySlice [c0, d1, d2, L, x, d, L2] 4 6 = [x, d] from rfl,
      show pySlice [c0, d1, d2, L, x, d, L2] 0 4 = [c0, d1, d2, L] from rfl,
      show pySlice [c0, d1, d2, L, x, d, L2] 1 3 = [d1, d2] from rfl]
  simp only [parse_asteroid, h1, h2, h3]
  simp only [List.foldlM, except_bind_ok, pure_ok]
  simp [h4, except_bind_ok, pure_ok, claimUnpack7]

/-- Witness for the amended C6 at the documented packed designations
J95X00A and K07Tf8A. -/
theorem packed_IJKL_unpacks_witness :
    parse_asteroid "J95X00A" = .ok (some "1995 XA", none, none) ∧
    parse_asteroid "K07Tf8A" = .ok (some "2007 TA418", none, none) := by
  constructor
  · have h := packed_IJKL_unpacks 'J' '9' '5' 'X' '0' '0' 'A' (by decide)
      (by decide) (by decide) (by decide) (by decide) (by decide) (by decide)
    exact h.trans (by decide)
  · have h := packed_IJKL_unpacks 'K' '0' '7' 'T' 'f' '8' 'A' (by decide)
      (by decide) (by decide) (by decide) (by decide) (by decide) (by decide)
    exact h.trans (by decide)


theorem charRun_append_stop (cls : Char → Bool) (N : List Char) (c : Char)
    (t : List Char) (hN : N.all cls = true) (hc : cls c = false) :
    charRun cls (N ++ c :: t) = N.length := by
  induction N with
  | nil => simp [charRun, List.takeWhile, hc]
  | cons a N ih =>
    simp only [List.all_cons, Bool.and_eq_true] at hN
    have ht := ih hN.2
    simp only [charRun] at ht ⊢
    simp [List.takeWhile_cons, hN.1, ht]

theorem take_length_append {α : Type} (l1 l2 : List α) :
    (l1 ++ l2).take l1.length = l1 := by
  simp

theorem drop_length_append {α : Type} (l1 l2 : List α) :
    (l1 ++ l2).drop l1.length = l2 := by
  simp

theorem replaceChar_eq_of_not_mem (old : Char) (new : List Char) (l : List Char)
    (h : ∀ c ∈ l, (c = old) = False) : replaceChar old new l = l := by
  induction l with
  | nil => rfl
  | cons a t ih =>
    have ha := h a (by simp)
    have ht : replaceChar old new t = t := ih (fun c hc => h c (by simp [hc]))
    simp only [replaceChar] at ht
    simp [replaceChar, ha, ht]

/-- C8: every numbered periodic comet string N P slash name, with N a
nonempty string of nonzero digits and name fully matched by the comet name
grammar with length above one, parses to prefix and number N P, name name,
and no provisional designation. -/
theorem numbered_comet_parses (N name : List Char)
    (hN : N ≠ []) (hNd : N.all digit19 = true)
    (hname : matchCometName name = some (name, []))
    (hlen : 1 < name.length)
    (hstrip : pyStrip (N ++ 'P' :: '/' :: name) = N ++ 'P' :: '/' :: name) :
    parse_comet (String.mk (N ++ 'P' :: '/' :: name)) =
      (none, some (String.mk (N ++ ['P'])), some (String.mk name)) := by
  obtain ⟨m, hm⟩ : ∃ m, N.length = m + 1 := by
    cases N with
    | nil => exact absurd rfl hN
    | cons a l' => exact ⟨l'.length, rfl⟩
  obtain ⟨n0, N', hN0⟩ : ∃ a l', N = a :: l' := by
    cases N with
    | nil => exact absurd rfl hN
    | cons a l' => exact ⟨a, l', rfl⟩
  obtain ⟨c, t, hnc⟩ : ∃ c t, name = c :: t := by
    cases name with
    | nil => simp [matchCometName] at hname
    | cons c t => exact ⟨c, t, rfl⟩
  have hcU : pyIsUpper c = true := by
    by_cases h : pyIsUpper c = true
    · exact h
    · rw [hnc] at hname
      simp [matchCometName, Bool.eq_false_iff.mpr h] at hname
  have hrun : charRun digit19 (N ++ 'P' :: '/' :: name) = N.length :=
    charRun_append_stop digit19 N 'P' ('/' :: name) hNd (by decide)
  have hpre : matchCometPrefix (N ++ 'P' :: '/' :: name) =
      some (N ++ ['P'], '/' :: name) := by
    simp only [matchCometPrefix, tryRep, hrun, hm]
    simp only [tryCountsFrom]
    rw [if_neg (by omega), ← hm, take_length_append, drop_length_append]
    simp [show classPDCXAI 'P' = true from rfl]
  have hstep1 : cometStep true (N ++ 'P' :: '/' :: name) =
      some (⟨N ++ ['P'], [], []⟩, '/' :: name) := by
    simp [cometStep, hpre]
  have hdesig1 : matchCometDesig ('/' :: name) = none := by
    simp [matchCometDesig, optClass, tryRep, charRun, List.takeWhile,
      tryCountsFrom]
  have hname1 : matchCometName ('/' :: name) = none := by
    simp [matchCometName, show pyIsUpper '/' = false from rfl]
  have hstep2 : cometStep false ('/' :: name) = none := by
    simp [cometStep, hdesig1, hname1]
  have hcdash : (c = '-') = False :=
    notin_class_of_bounds c 65 90 (upper_bounds c hcU).1 (upper_bounds c hcU).2
      '-' (by decide)
  have hdesig2 : matchCometDesig name = none := by
    rw [hnc]
    simp [matchCometDesig, optClass, hcdash, tryRep, charRun, List.takeWhile,
      upper_not_digit c hcU, tryCountsFrom]
  have hstep3 : cometStep false name = some (⟨[], [], name⟩, []) := by
    have hd2 := hdesig2
    rw [hnc] at hname hd2 ⊢
    simp [cometStep, hd2, hname]
  have hL : (N ++ 'P' :: '/' :: name).length = m + name.length + 1 + 1 + 1 := by
    simp [List.length_append, hm]
    omega
  have hstep1' : cometStep true (n0 :: (N' ++ 'P' :: '/' :: name)) =
      some (⟨N ++ ['P'], [], []⟩, '/' :: name) := by
    rw [← List.cons_append, ← hN0]
    exact hstep1
  have hstep3' : cometStep false (c :: t) = some (⟨[], [], c :: t⟩, []) := by
    rw [← hnc]
    exact hstep3
  have hfind : findallComet (N ++ 'P' :: '/' :: name) =
      [⟨N ++ ['P'], [], []⟩, ⟨[], [], name⟩] := by
    rw [findallComet, hL,
      show N ++ 'P' :: '/' :: name = n0 :: (N' ++ 'P' :: '/' :: name) from
        by rw [hN0]; rfl]
    rw [scanFindall_cons_some cometStep (m + name.length + 1 + 1) true n0
      (N' ++ 'P' :: '/' :: name) ('/' :: name) ⟨N ++ ['P'], [], []⟩ hstep1']
    rw [scanFindall_cons_none cometStep (m + name.length + 1) false '/' name
      hstep2]
    rw [hnc]
    rw [scanFindall_cons_some cometStep (m + (c :: t).length) false c t []
      ⟨[], [], c :: t⟩ hstep3']
    rw [scanFindall_nil]
  have hrep : replaceChar '/' [] (N ++ ['P']) = N ++ ['P'] := by
    apply replaceChar_eq_of_not_mem
    intro ch hch
    rcases List.mem_append.mp hch with hmem | hmem
    · have hd19 : digit19 ch = true := List.all_eq_true.mp hNd ch hmem
      have hb : 49 ≤ ch.toNat ∧ ch.toNat ≤ 57 := by
        simpa [digit19, Bool.and_eq_true, decide_eq_true_eq] using hd19
      exact notin_class_of_bounds ch 49 57 hb.1 hb.2 '/' (by decide)
    · have hP : ch = 'P' := by simpa using hmem
      subst hP
      exact char_eq_false_of_toNat_ne (by decide)
  simp only [parse_comet,
    show (String.mk (N ++ 'P' :: '/' :: name)).toList =
      N ++ 'P' :: '/' :: name from rfl,
    hstrip, hfind, List.foldl]
  simp [hrep, hlen]

/-- Witness for C8 at the documented numbered comet 9P slash Tempel 1. -/
theorem numbered_comet_parses_witness :
    parse_comet "9P/Tempel 1" = (none, some "9P", some "Tempel 1") := by
  have h := numbered_comet_parses ['9'] ['T', 'e', 'm', 'p', 'e', 'l', ' ', '1']
    (by decide) (by decide) (by decide) (by decide) (by decide)
  exact (congrArg parse_comet (by decide :
    ("9P/Tempel 1" : String) = String.mk (['9'] ++ 'P' :: '/' ::
      ['T', 'e', 'm', 'p', 'e', 'l', ' ', '1']))).trans (h.trans (by decide))

end CallHorizons
